import Mathlib

/-!
Verification development for the simple-weather-agent repository.

Python string values are modelled as lists of characters; each embedded
function mirrors one Python function of the source tree.  External
collaborators (the weather HTTP API, the Wikipedia lookup library and the
LLM completion API) are modelled as oracles passed in explicitly, so that
theorems quantify over every possible behaviour of those collaborators.
-/

set_option linter.unusedVariables false

/-- A Python string, modelled as its list of characters. -/
abbrev Str := List Char

namespace Py

/-- Python str.lower, ASCII case folding (the queries in scope are ASCII). -/
def lower (s : Str) : Str := s.map Char.toLower

/-- Python str.strip() with no argument: drop whitespace at both ends. -/
def strip (s : Str) : Str :=
  ((s.dropWhile Char.isWhitespace).reverse.dropWhile Char.isWhitespace).reverse

/-- Python str.rstrip(chars): drop trailing characters drawn from the set. -/
def rstrip (cs : Str) (s : Str) : Str :=
  (s.reverse.dropWhile (fun c => cs.contains c)).reverse

/-- Python str.strip(chars): drop characters drawn from the set at both ends. -/
def stripChars (cs : Str) (s : Str) : Str :=
  ((s.dropWhile (fun c => cs.contains c)).reverse.dropWhile (fun c => cs.contains c)).reverse

/-- Scan for the first occurrence of a separator: returns the text before the
first occurrence, and the remainder after it when the separator occurs. -/
def splitOnce (sep : Str) : Str → Str × Option Str
  | [] => ([], none)
  | c :: rest =>
    if sep.isPrefixOf (c :: rest) then ([], some ((c :: rest).drop sep.length))
    else ((c :: (splitOnce sep rest).1), (splitOnce sep rest).2)

/-- Python s.split(sep)[1] for a nonempty sep occurring in s: the text between
the first occurrence of sep and the following occurrence (or the end). -/
def splitSecond (sep s : Str) : Option Str :=
  match splitOnce sep s with
  | (_, none) => none
  | (_, some rest) => some (splitOnce sep rest).1

/-- Python (sep in s) for a nonempty sep. -/
def hasSub (sep s : Str) : Bool := (splitOnce sep s).2.isSome

/-- Bounded iteration for str.replace; the fuel exceeds the number of
occurrences, so the bound is never hit for the actual argument. -/
def replaceFuel (old new : Str) : Nat → Str → Str
  | 0, s => s
  | fuel + 1, s =>
    match splitOnce old s with
    | (_, none) => s
    | (pre, some rest) => pre ++ new ++ replaceFuel old new fuel rest

/-- Python str.replace(old, new) for a nonempty old: replace every
non-overlapping occurrence, scanning left to right. -/
def replace (old new s : Str) : Str := replaceFuel old new s.length s

/-- Python str.split for the newline separator used at the call sites:
all the pieces, keeping empty pieces, as str.split(sep) does. -/
def splitLines : Str → List Str
  | [] => [[]]
  | c :: rest =>
    if c = '\n' then [] :: splitLines rest
    else
      match splitLines rest with
      | l :: ls => (c :: l) :: ls
      | [] => [[c]]

/-- Python int(s) for optionally signed decimal strings, none on malformed
input (the ValueError case). -/
def toInt (s : Str) : Option Int :=
  let t := strip s
  let p : Int × Str :=
    match t with
    | c :: rest => if c = '-' then (-1, rest) else if c = '+' then (1, rest) else (1, t)
    | [] => (1, [])
  if p.2 ≠ [] ∧ p.2.all Char.isDigit then
    some (p.1 * ((p.2.foldl (fun acc c => acc * 10 + (c.toNat - 48)) 0 : Nat) : Int))
  else none

theorem isPrefixOf_iff {l1 l2 : Str} : l1.isPrefixOf l2 = true ↔ l1 <+: l2 :=
  List.isPrefixOf_iff_prefix

theorem splitOnce_of_absent {sep s : Str} (h : ¬ sep <:+: s) :
    splitOnce sep s = (s, none) := by
  induction s with
  | nil => rfl
  | cons c rest ih =>
    have hpre : ¬ sep.isPrefixOf (c :: rest) = true := by
      intro hb
      exact h ((isPrefixOf_iff.mp hb).isInfix)
    have hrest : ¬ sep <:+: rest := fun hi => h (List.infix_cons hi)
    simp only [splitOnce]
    rw [if_neg hpre, ih hrest]

theorem splitOnce_some {sep s p r : Str} (h : splitOnce sep s = (p, some r)) :
    s = p ++ sep ++ r := by
  induction s generalizing p with
  | nil => simp [splitOnce] at h
  | cons c rest ih =>
    by_cases hpre : sep.isPrefixOf (c :: rest) = true
    · simp only [splitOnce] at h
      rw [if_pos hpre] at h
      simp only [Prod.mk.injEq, Option.some.injEq] at h
      obtain ⟨t, ht⟩ := isPrefixOf_iff.mp hpre
      rw [← h.1, ← h.2, ← ht, List.nil_append, List.drop_left]
    · simp only [splitOnce] at h
      rw [if_neg hpre] at h
      simp only [Prod.mk.injEq] at h
      obtain ⟨h1, h2⟩ := h
      have hsp : splitOnce sep rest = ((splitOnce sep rest).1, some r) := by
        rw [← h2]
      have hres := ih hsp
      rw [← h1]
      show c :: rest = (c :: (splitOnce sep rest).1) ++ sep ++ r
      conv_lhs => rw [hres]
      simp [List.cons_append]

theorem splitOnce_at {sep : Str} (hsep : sep ≠ []) :
    ∀ (a x : Str), ¬ sep <:+: (a ++ sep.dropLast) →
    splitOnce sep (a ++ sep ++ x) = (a, some x) := by
  intro a
  induction a with
  | nil =>
    intro x _
    have hpre : sep.isPrefixOf (sep ++ x) = true :=
      isPrefixOf_iff.mpr (List.prefix_append _ _)
    obtain ⟨c, s', rfl⟩ : ∃ c s', sep = c :: s' := by
      cases sep with
      | nil => exact absurd rfl hsep
      | cons c s' => exact ⟨c, s', rfl⟩
    show splitOnce (c :: s') ((c :: s') ++ x) = ([], some x)
    have hx : (c :: s') ++ x = c :: (s' ++ x) := rfl
    rw [hx]
    simp only [splitOnce]
    rw [← hx, if_pos hpre, List.drop_left]
  | cons b a' ih =>
    intro x h
    have hlen : sep.length ≤ ((b :: a') ++ sep.dropLast).length := by
      simp only [List.length_append, List.length_cons, List.length_dropLast]
      omega
    have hforb : ((b :: a') ++ sep.dropLast) <+: ((b :: a') ++ sep ++ x) := by
      have hdl := List.dropLast_prefix sep
      have hdp : sep.dropLast <+: sep ++ x :=
        List.IsPrefix.trans hdl (List.prefix_append sep x)
      obtain ⟨t, ht⟩ := hdp
      exact ⟨t, by rw [List.append_assoc, ht, ← List.append_assoc]⟩
    have hpre : ¬ sep.isPrefixOf ((b :: a') ++ sep ++ x) = true := by
      intro hb
      have hp := isPrefixOf_iff.mp hb
      have : sep <+: ((b :: a') ++ sep.dropLast) :=
        List.prefix_of_prefix_length_le hp hforb hlen
      exact h this.isInfix
    have h' : ¬ sep <:+: (a' ++ sep.dropLast) := fun hi => h (List.infix_cons hi)
    show splitOnce sep (b :: (a' ++ sep ++ x)) = (b :: a', some x)
    have hx : (b :: a') ++ sep ++ x = b :: (a' ++ sep ++ x) := rfl
    rw [hx] at hpre
    simp only [splitOnce]
    rw [if_neg hpre, ih x h']

theorem splitSecond_eq {sep a x : Str} (hsep : sep ≠ [])
    (h2 : ¬ sep <:+: (a ++ sep.dropLast)) (h3 : ¬ sep <:+: x) :
    splitSecond sep (a ++ sep ++ x) = some x := by
  rw [splitSecond, splitOnce_at hsep a x h2]
  show some (splitOnce sep x).1 = some x
  rw [splitOnce_of_absent h3]

theorem splitSecond_eq_none {sep s : Str} (h : ¬ sep <:+: s) :
    splitSecond sep s = none := by
  rw [splitSecond, splitOnce_of_absent h]

theorem absent_of_splitOnce_none {sep : Str} (hsep : sep ≠ []) :
    ∀ s : Str, (splitOnce sep s).2 = none → ¬ sep <:+: s := by
  intro s
  induction s with
  | nil =>
    intro _ hi
    exact hsep (List.infix_nil.mp hi)
  | cons c rest ih =>
    intro hnone hi
    by_cases hpre : sep.isPrefixOf (c :: rest) = true
    · simp only [splitOnce] at hnone
      rw [if_pos hpre] at hnone
      simp at hnone
    · simp only [splitOnce] at hnone
      rw [if_neg hpre] at hnone
      rcases List.infix_cons_iff.mp hi with hl | hr
      · exact hpre (isPrefixOf_iff.mpr hl)
      · exact ih hnone hr

theorem hasSub_iff_occurs {sep s : Str} (hsep : sep ≠ []) :
    hasSub sep s = true ↔ sep <:+: s := by
  constructor
  · intro h
    rw [hasSub, Option.isSome_iff_exists] at h
    obtain ⟨r, hr⟩ := h
    have hsp : splitOnce sep s = ((splitOnce sep s).1, some r) := by
      rw [← hr]
    rw [splitOnce_some hsp]
    exact List.infix_append _ _ _
  · intro h
    by_contra hb
    have hnone : (splitOnce sep s).2 = none :=
      Option.not_isSome_iff_eq_none.mp (by simpa [hasSub] using hb)
    exact absent_of_splitOnce_none hsep s hnone h

theorem hasSub_eq_false {sep s : Str} (h : ¬ sep <:+: s) : hasSub sep s = false := by
  simp [hasSub, splitOnce_of_absent h]

theorem dropWhile_self_idem (p : Char → Bool) (l : Str) :
    List.dropWhile p (List.dropWhile p l) = List.dropWhile p l := by
  induction l with
  | nil => rfl
  | cons c l ih =>
    by_cases h : p c = true
    · simp [List.dropWhile_cons, h, ih]
    · simp [List.dropWhile_cons, h]

theorem rstrip_idem (cs s : Str) : rstrip cs (rstrip cs s) = rstrip cs s := by
  simp [rstrip, dropWhile_self_idem]

end Py

/-- Python str(n) for an integer, as a character list. -/
def intStr (n : Int) : Str := (toString n).data

/-- Python str.title() over ASCII letters: the first letter of every run of
letters is upper-cased, the following letters are lower-cased. -/
def titleAux : Bool → Str → Str
  | _, [] => []
  | prevCased, c :: rest =>
    (if prevCased then c.toLower else c.toUpper) :: titleAux c.isAlpha rest

/-- Python str.title(). -/
def pyTitle (s : Str) : Str := titleAux false s

/-- The weather payload fields the agents dereference on the success path
(OpenWeatherMap main.temp, main.feels_like, main.humidity and
weather[0].description). -/
structure Weather where
  temp : Int
  feels_like : Int
  humidity : Int
  description : Str
deriving DecidableEq

/-- Result of WeatherService.get_weather: the parsed JSON payload, or the
error-marker dictionary containing the key error with a message. -/
inductive WRes where
  | ok (w : Weather)
  | err (msg : Str)
deriving DecidableEq

/-- Result of WikipediaService.get_location_info as seen by the agents:
the summary/url dictionary, or the error-marker dictionary. -/
inductive KRes where
  | ok (summary url : Str)
  | err (msg : Str)
deriving DecidableEq

/-- The two HTTP-backed services, as oracles from location to result. -/
structure Services where
  getWeather : Str → WRes
  getWiki : Str → KRes

/-- One external call performed during a run (weather HTTP GET, Wikipedia
lookup, or one of the LLM completion calls). -/
inductive Call where
  | weather (location : Str)
  | wiki (location : Str)
  | llmPlan
  | llmReflect
  | llmCompose
deriving DecidableEq

namespace WeatherAgent

/-- The trailing punctuation set stripped by _extract_location. -/
def punct : Str := ['?', '!', '.', ',', ';', ':']

def weatherIn : Str := "weather in ".data

def weatherFor : Str := "weather for ".data

def weatherAt : Str := "weather at ".data

/-- The cleaning prelude of _extract_location (src/agent.py lines 38-41):
lower-case, strip surrounding whitespace, strip trailing punctuation. -/
def cleanQuery (query : Str) : Str := Py.rstrip punct (Py.strip (Py.lower query))

/-- Embeds WeatherAgent._extract_location (src/agent.py lines 31-57). -/
def extract_location (query : Str) : Str :=
  Py.rstrip punct
    (match Py.splitSecond weatherIn (cleanQuery query) with
     | some rest => Py.strip rest
     | none =>
       match Py.splitSecond weatherFor (cleanQuery query) with
       | some rest => Py.strip rest
       | none =>
         match Py.splitSecond weatherAt (cleanQuery query) with
         | some rest => Py.strip rest
         | none => cleanQuery query)

/-- The fixed clarification message of WeatherAgent.process_query. -/
def clarifyMsg : Str :=
  "I couldn\x27t identify a location in your query. Please specify a city or place.".data

/-- The weather-error reply of WeatherAgent.process_query (line 26). -/
def weatherErrorReply (e : Str) : Str :=
  "Sorry, I couldn\x27t get weather information: ".data ++ e

/-- Embeds WeatherAgent._format_response (src/agent.py lines 59-79). -/
def format_response (location : Str) (w : Weather) (wiki_data : KRes) : Str :=
  let base :=
    "Weather in ".data ++ pyTitle location ++ ":\n".data ++
    "• Current condition: ".data ++ w.description ++ "\n".data ++
    "• Temperature: ".data ++ intStr w.temp ++ "°C (feels like ".data ++
    intStr w.feels_like ++ "°C)\n".data ++
    "• Humidity: ".data ++ intStr w.humidity ++ "%\n\n".data
  match wiki_data with
  | .err _ => base
  | .ok summary url =>
    base ++ "About ".data ++ pyTitle location ++ ":\n".data ++ summary ++ "\n".data ++
    "Learn more: ".data ++ url

/-- Embeds WeatherAgent.process_query (src/agent.py lines 8-29), also
returning the list of external calls performed. -/
def process_query (sv : Services) (query : Str) : Str × List Call :=
  let location := extract_location query
  if location = [] then (clarifyMsg, [])
  else
    match sv.getWeather location with
    | .err e => (weatherErrorReply e, [Call.weather location, Call.wiki location])
    | .ok w =>
      (format_response location w (sv.getWiki location),
       [Call.weather location, Call.wiki location])

end WeatherAgent

/-- C1: the direct extraction strategy first lower-cases the query and strips
trailing punctuation; when the cleaned query contains weather-in (resp.
weather-for, weather-at, in the priority order of the source), the returned
location is the text following that marker, trimmed of surrounding whitespace
and de-punctuated at the end; when none of the three markers occurs, the
entire cleaned query is returned. -/
theorem weather_agent_extract_location_direct (q : Str) :
    (∀ a x, WeatherAgent.cleanQuery q = a ++ WeatherAgent.weatherIn ++ x →
      ¬ WeatherAgent.weatherIn <:+: (a ++ WeatherAgent.weatherIn.dropLast) →
      ¬ WeatherAgent.weatherIn <:+: x →
      WeatherAgent.extract_location q = Py.rstrip WeatherAgent.punct (Py.strip x))
  ∧ (∀ a x, ¬ WeatherAgent.weatherIn <:+: WeatherAgent.cleanQuery q →
      WeatherAgent.cleanQuery q = a ++ WeatherAgent.weatherFor ++ x →
      ¬ WeatherAgent.weatherFor <:+: (a ++ WeatherAgent.weatherFor.dropLast) →
      ¬ WeatherAgent.weatherFor <:+: x →
      WeatherAgent.extract_location q = Py.rstrip WeatherAgent.punct (Py.strip x))
  ∧ (∀ a x, ¬ WeatherAgent.weatherIn <:+: WeatherAgent.cleanQuery q →
      ¬ WeatherAgent.weatherFor <:+: WeatherAgent.cleanQuery q →
      WeatherAgent.cleanQuery q = a ++ WeatherAgent.weatherAt ++ x →
      ¬ WeatherAgent.weatherAt <:+: (a ++ WeatherAgent.weatherAt.dropLast) →
      ¬ WeatherAgent.weatherAt <:+: x →
      WeatherAgent.extract_location q = Py.rstrip WeatherAgent.punct (Py.strip x))
  ∧ (¬ WeatherAgent.weatherIn <:+: WeatherAgent.cleanQuery q →
      ¬ WeatherAgent.weatherFor <:+: WeatherAgent.cleanQuery q →
      ¬ WeatherAgent.weatherAt <:+: WeatherAgent.cleanQuery q →
      WeatherAgent.extract_location q = WeatherAgent.cleanQuery q) := by
  refine ⟨?_, ?_, ?_, ?_⟩
  · intro a x h h2 h3
    have hs : Py.splitSecond WeatherAgent.weatherIn
        (a ++ WeatherAgent.weatherIn ++ x) = some x :=
      Py.splitSecond_eq (by decide) h2 h3
    simp only [WeatherAgent.extract_location, h, hs]
  · intro a x hin h h2 h3
    have hn : Py.splitSecond WeatherAgent.weatherIn
        (a ++ WeatherAgent.weatherFor ++ x) = none := by
      rw [← h]
      exact Py.splitSecond_eq_none hin
    have hs : Py.splitSecond WeatherAgent.weatherFor
        (a ++ WeatherAgent.weatherFor ++ x) = some x :=
      Py.splitSecond_eq (by decide) h2 h3
    simp only [WeatherAgent.extract_location, h, hn, hs]
  · intro a x hin hfor h h2 h3
    have hn1 : Py.splitSecond WeatherAgent.weatherIn
        (a ++ WeatherAgent.weatherAt ++ x) = none := by
      rw [← h]
      exact Py.splitSecond_eq_none hin
    have hn2 : Py.splitSecond WeatherAgent.weatherFor
        (a ++ WeatherAgent.weatherAt ++ x) = none := by
      rw [← h]
      exact Py.splitSecond_eq_none hfor
    have hs : Py.splitSecond WeatherAgent.weatherAt
        (a ++ WeatherAgent.weatherAt ++ x) = some x :=
      Py.splitSecond_eq (by decide) h2 h3
    simp only [WeatherAgent.extract_location, h, hn1, hn2, hs]
  · intro hin hfor hat
    have hn1 := Py.splitSecond_eq_none hin
    have hn2 := Py.splitSecond_eq_none hfor
    have hn3 := Py.splitSecond_eq_none hat
    simp only [WeatherAgent.extract_location, hn1, hn2, hn3]
    rw [WeatherAgent.cleanQuery]
    exact Py.rstrip_idem _ _

/-- Witness for C1: the first branch of the theorem applied to the query
What is the weather in Paris?, yielding the location paris. -/
theorem weather_agent_extract_location_direct_witness :
    WeatherAgent.extract_location "What is the weather in Paris?".data = "paris".data := by
  have h := (weather_agent_extract_location_direct "What is the weather in Paris?".data).1
    "what is the ".data "paris".data (by decide) (by decide) (by decide)
  rw [h]
  decide

/-- C9: for any query that cleans to the empty string (the empty query
included), direct extraction yields an empty location and
WeatherAgent.process_query returns the fixed clarification message while
performing no external call (the plain agent has no LLM composer at all, so
the empty call trace covers every external collaborator). -/
theorem weather_agent_empty_query (sv : Services) (q : Str)
    (h : WeatherAgent.cleanQuery q = []) :
    WeatherAgent.extract_location q = [] ∧
    WeatherAgent.process_query sv q = (WeatherAgent.clarifyMsg, []) := by
  have h1 : WeatherAgent.extract_location q = [] := by
    simp only [WeatherAgent.extract_location, h]
    rfl
  refine ⟨h1, ?_⟩
  simp [WeatherAgent.process_query, h1]

/-- Witness for C9: the query consisting of punctuation only cleans to the
empty string, and the run returns the clarification with no calls. -/
theorem weather_agent_empty_query_witness :
    WeatherAgent.extract_location "?!".data = [] ∧
    WeatherAgent.process_query ⟨fun _ => WRes.err [], fun _ => KRes.err []⟩ "?!".data =
      (WeatherAgent.clarifyMsg, []) :=
  weather_agent_empty_query ⟨fun _ => WRes.err [], fun _ => KRes.err []⟩ "?!".data (by decide)

/-- The no-weather reply shared by OpenAIWeatherAgent._generate_response
(line 619) and SimpleLangChainWeatherAgent._process_query_react (line 323). -/
def couldntFindMsg (location : Str) : Str :=
  "I couldn\x27t find weather information for ".data ++ location ++ ".".data

/-- The literal OpenWeatherMap attribution URL used by the composers. -/
def weatherSourceUrl : Str := "https://openweathermap.org/".data

/-- The suggested action that triggers the reflection retry. -/
def tryAltStr : Str := "try_alternative_location".data

/-- Result of one orchestrated run: the final reply, the external calls
performed, and the weather payload whose numeric fields were dereferenced
for composition (none when no such dereference happened). -/
structure RunOut where
  reply : Str
  trace : List Call
  used : Option Weather
deriving DecidableEq

namespace OpenAIAgent

/-- The punctuation set of the rstrip cleanups in openai_agent.py. -/
def punct : Str := ['?', '!', '.', ',', ';', ':']

/-- The JSON object parsed from the planning completion, restricted to the
keys the ReAct pipeline reads (location, needs_weather); a field is none when
the key is absent from the JSON object. -/
structure PlanJson where
  location : Option Str
  needs_weather : Option Bool

/-- The JSON object parsed from the reflection completion, restricted to the
keys _process_query_react reads; a field is none when the key is absent. -/
structure ReflectJson where
  sufficient : Option Bool
  notes : Option Str
  suggested_action : Option Str
  alternative_location : Option Str

/-- Embeds OpenAIWeatherAgent._reason_and_plan (src/openai_agent.py lines
372-423): the planning oracle is none when the completion call or JSON
parsing raises, in which case the fixed default with an empty location is
returned; otherwise the location value, when present and nonempty, is
stripped and de-punctuated at the end. -/
def reason_and_plan (plan : Option PlanJson) : PlanJson :=
  match plan with
  | none => ⟨some [], some true⟩
  | some r =>
    match r.location with
    | some l => if l ≠ [] then { r with location := some (Py.rstrip punct (Py.strip l)) } else r
    | none => r

/-- Embeds OpenAIWeatherAgent._reflect_on_data (lines 541-610) as seen from
its caller: the oracle is none when the completion raises, giving the fixed
sufficient-by-default result. -/
def reflect_on_data (r : Option ReflectJson) : ReflectJson :=
  match r with
  | none => ⟨some true, some "Reflection process encountered an error".data, none, none⟩
  | some j => j

/-- The oracle environment of one OpenAI ReAct run: the three LLM
completions (none models a raised exception) and the two services. -/
structure OEnv where
  plan : Option PlanJson
  sv : Services
  reflect : Option ReflectJson
  compose : Option Str

/-- The composer-failure reply of OpenAIWeatherAgent._generate_response
(line 706): a generic sentence with no numeric interpolation. -/
def composeErrMsg (location : Str) : Str :=
  "I found information about the weather in ".data ++ location ++
  ", but encountered an error creating a response.".data

/-- Embeds OpenAIWeatherAgent._generate_response (lines 612-706) for reply,
calls and numeric dereference: with absent or error-marked weather data the
fixed no-weather reply is returned before any field access or LLM call;
otherwise the numeric fields are packed for the completion call, whose
failure yields the generic composer-failure sentence.  (The wiki summary and
reasoning metadata only feed the prompt text and are omitted.) -/
def generate_response (compose : Option Str) (location : Str) (weather_data : Option WRes)
    (tr : List Call) : RunOut :=
  match weather_data with
  | some (.ok w) =>
    match compose with
    | some text => ⟨text, tr ++ [Call.llmCompose], some w⟩
    | none => ⟨composeErrMsg location, tr ++ [Call.llmCompose], some w⟩
  | _ => ⟨couldntFindMsg location, tr, none⟩

/-- The acting/reflecting/composing tail of _process_query_react (lines
105-198), entered once a nonempty location was planned.  needs_location_info
is hard-coded true by line 84, so the wiki lookup always runs. -/
def reactBody (env : OEnv) (location : Str) (needs_weather : Bool) : RunOut :=
  match (if needs_weather then some (env.sv.getWeather location) else none : Option WRes) with
  | some (.err e) =>
    ⟨WeatherAgent.weatherErrorReply e,
     [Call.llmPlan] ++ (if needs_weather then [Call.weather location] else []), none⟩
  | w0 =>
    let tr1 := [Call.llmPlan] ++ (if needs_weather then [Call.weather location] else []) ++
      [Call.wiki location, Call.llmReflect]
    let reflection := reflect_on_data env.reflect
    if ¬ (reflection.sufficient.getD true) ∧ reflection.suggested_action = some tryAltStr ∧
        reflection.alternative_location.isSome then
      let alt := reflection.alternative_location.getD []
      generate_response env.compose alt
        (if needs_weather then some (env.sv.getWeather alt) else w0)
        (tr1 ++ (if needs_weather then [Call.weather alt] else []) ++ [Call.wiki alt])
    else
      generate_response env.compose location w0 tr1

/-- Embeds OpenAIWeatherAgent._process_query_react (lines 63-198). -/
def react (env : OEnv) (query : Str) : RunOut :=
  let planning := reason_and_plan env.plan
  let location := planning.location.getD []
  if location = [] then ⟨WeatherAgent.clarifyMsg, [Call.llmPlan], none⟩
  else reactBody env location (planning.needs_weather.getD true)

end OpenAIAgent

namespace LangChainAgent

/-- The punctuation set of the strip cleanups in simple_langchain_agent.py. -/
def punct : Str := ['?', '!', '.', ',', ';', ':']

/-- The planning fields _process_query_react reads downstream.  (TIME_PERIOD
and WEATHER_ASPECTS are parsed by the same loop but only printed, so they are
not modelled.) -/
structure PlanParse where
  location : Str
  needs_weather : Bool
  needs_location_info : Bool

/-- One iteration of the planning-text parsing loop (lines 114-127). -/
def parsePlanLine (st : PlanParse) (rawLine : Str) : PlanParse :=
  let line := Py.strip rawLine
  if "LOCATION:".data.isPrefixOf line then
    { st with location := Py.strip (Py.replace "LOCATION:".data [] line) }
  else if "NEEDS_WEATHER:".data.isPrefixOf line then
    { st with needs_weather :=
        Py.lower (Py.strip (Py.replace "NEEDS_WEATHER:".data [] line)) = "yes".data }
  else if "NEEDS_LOCATION_INFO:".data.isPrefixOf line then
    { st with needs_location_info :=
        Py.lower (Py.strip (Py.replace "NEEDS_LOCATION_INFO:".data [] line)) = "yes".data }
  else st

/-- The planning-text parsing of _process_query_react (lines 107-127),
starting from the defaults empty location / fetch both. -/
def parsePlanning (text : Str) : PlanParse :=
  (Py.splitLines (Py.strip text)).foldl parsePlanLine ⟨[], true, true⟩

/-- The reflection fields _process_query_react reads downstream.
(MISSING_INFORMATION is parsed by the same loop but only printed.) -/
structure ReflectParse where
  is_sufficient : Bool
  notes : Str
  suggested_action : Str
  alternative_location : Str

/-- One iteration of the reflection-text parsing loop (lines 255-273);
the literal value none empties the action and alternative fields. -/
def parseReflectLine (st : ReflectParse) (rawLine : Str) : ReflectParse :=
  let line := Py.strip rawLine
  if "SUFFICIENT:".data.isPrefixOf line then
    { st with is_sufficient :=
        Py.lower (Py.strip (Py.replace "SUFFICIENT:".data [] line)) = "yes".data }
  else if "MISSING_INFORMATION:".data.isPrefixOf line then
    st
  else if "NOTES:".data.isPrefixOf line then
    { st with notes := Py.strip (Py.replace "NOTES:".data [] line) }
  else if "SUGGESTED_ACTION:".data.isPrefixOf line then
    let v := Py.strip (Py.replace "SUGGESTED_ACTION:".data [] line)
    { st with suggested_action := if Py.lower v = "none".data then [] else v }
  else if "ALTERNATIVE_LOCATION:".data.isPrefixOf line then
    let v := Py.strip (Py.replace "ALTERNATIVE_LOCATION:".data [] line)
    { st with alternative_location := if Py.lower v = "none".data then [] else v }
  else st

/-- The reflection-text parsing of _process_query_react (lines 248-273),
starting from the sufficient-by-default values. -/
def parseReflection (text : Str) : ReflectParse :=
  (Py.splitLines (Py.strip text)).foldl parseReflectLine ⟨true, [], [], []⟩

/-- The prefixes of the simple fallback extraction used in the exception
handlers (lines 144, 459, 477, 730); the two how-is variants are listed
after the plain ones, as in the source. -/
def fallbackPrefixes : List Str :=
  ["weather in ".data, "weather at ".data, "weather for ".data,
   "how\x27s the weather in ".data, "how is the weather in ".data]

/-- The prefix loop of the fallback extraction: the first prefix occurring in
the lowered query selects the text after it, stripped; otherwise the query is
kept whole. -/
def firstSplit : List Str → Str → Str
  | [], loc => loc
  | p :: ps, loc =>
    match Py.splitSecond p loc with
    | some rest => Py.strip rest
    | none => firstSplit ps loc

/-- The simple fallback extraction of the exception handlers (lines 143-148):
lower the raw query, split after the first matching prefix, then strip the
punctuation set at both ends. -/
def simple_extract (query : Str) : Str :=
  Py.stripChars punct (firstSplit fallbackPrefixes (Py.lower query))

/-- The oracle environment of one LangChain run: the three LLM completions
as raw text (none models a raised exception) and the two services. -/
structure LEnv where
  planText : Option Str
  sv : Services
  reflectText : Option Str
  compose : Option Str

/-- The composer-failure reply of _process_query_react (line 401): the
deterministic template interpolating the raw numeric fields. -/
def reactFallbackMsg (location : Str) (w : Weather) : Str :=
  "In ".data ++ location ++ ", the current temperature is ".data ++ intStr w.temp ++
  "°C, feels like ".data ++ intStr w.feels_like ++ "°C, with ".data ++ w.description ++
  " and ".data ++ intStr w.humidity ++
  "% humidity.\n\nSources: [Weather data from OpenWeatherMap](".data ++
  weatherSourceUrl ++ ")".data

/-- The response step of _process_query_react (lines 316-401): with absent or
error-marked weather data the fixed no-weather reply (line 323) is returned
before any numeric field access; otherwise the fields feed the completion
call, whose failure yields the deterministic fallback template. -/
def finishReact (compose : Option Str) (location : Str) (weather_data : Option WRes)
    (tr : List Call) : RunOut :=
  match weather_data with
  | some (.ok w) =>
    match compose with
    | some text => ⟨text, tr ++ [Call.llmCompose], some w⟩
    | none => ⟨reactFallbackMsg location w, tr ++ [Call.llmCompose], some w⟩
  | _ => ⟨couldntFindMsg location, tr, none⟩

/-- The acting/reflecting/composing tail of _process_query_react (lines
153-401), entered with the planned location and fetch flags. -/
def reactBody (env : LEnv) (location : Str) (needs_weather needs_location_info : Bool) :
    RunOut :=
  match (if needs_weather then some (env.sv.getWeather location) else none : Option WRes) with
  | some (.err e) =>
    ⟨WeatherAgent.weatherErrorReply e,
     [Call.llmPlan] ++ (if needs_weather then [Call.weather location] else []), none⟩
  | w0 =>
    let tr1 := [Call.llmPlan] ++ (if needs_weather then [Call.weather location] else []) ++
      (if needs_location_info then [Call.wiki location] else []) ++ [Call.llmReflect]
    match env.reflectText with
    | some rtxt =>
      let rp := parseReflection rtxt
      if ¬ rp.is_sufficient ∧ rp.suggested_action = tryAltStr ∧
          rp.alternative_location ≠ [] then
        finishReact env.compose rp.alternative_location
          (if needs_weather then some (env.sv.getWeather rp.alternative_location) else w0)
          (tr1 ++ (if needs_weather then [Call.weather rp.alternative_location] else []) ++
           (if needs_location_info then [Call.wiki rp.alternative_location] else []))
      else
        finishReact env.compose location w0 tr1
    | none =>
      finishReact env.compose location w0 tr1

/-- Embeds SimpleLangChainWeatherAgent._process_query_react (lines 64-401):
when the planning completion succeeds, its text is parsed and an empty
location returns the clarification; when it raises, the simple fallback
extraction is used with both fetch flags forced true and no empty-location
check (lines 139-151). -/
def react (env : LEnv) (query : Str) : RunOut :=
  match env.planText with
  | some txt =>
    let pp := parsePlanning txt
    if pp.location = [] then ⟨WeatherAgent.clarifyMsg, [Call.llmPlan], none⟩
    else reactBody env pp.location pp.needs_weather pp.needs_location_info
  | none =>
    reactBody env (simple_extract query) true true

end LangChainAgent

theorem OpenAIAgent.generate_response_none (c : Option Str) (loc : Str) (tr : List Call) :
    OpenAIAgent.generate_response c loc none tr = ⟨couldntFindMsg loc, tr, none⟩ := rfl

theorem OpenAIAgent.generate_response_err (c : Option Str) (loc m : Str) (tr : List Call) :
    OpenAIAgent.generate_response c loc (some (WRes.err m)) tr = ⟨couldntFindMsg loc, tr, none⟩ := rfl

theorem OpenAIAgent.generate_response_ok_some (t : Str) (loc : Str) (w : Weather) (tr : List Call) :
    OpenAIAgent.generate_response (some t) loc (some (WRes.ok w)) tr =
      ⟨t, tr ++ [Call.llmCompose], some w⟩ := rfl

theorem OpenAIAgent.generate_response_ok_none (loc : Str) (w : Weather) (tr : List Call) :
    OpenAIAgent.generate_response none loc (some (WRes.ok w)) tr =
      ⟨OpenAIAgent.composeErrMsg loc, tr ++ [Call.llmCompose], some w⟩ := rfl

theorem LangChainAgent.finishReact_none (c : Option Str) (loc : Str) (tr : List Call) :
    LangChainAgent.finishReact c loc none tr = ⟨couldntFindMsg loc, tr, none⟩ := rfl

theorem LangChainAgent.finishReact_err (c : Option Str) (loc m : Str) (tr : List Call) :
    LangChainAgent.finishReact c loc (some (WRes.err m)) tr = ⟨couldntFindMsg loc, tr, none⟩ := rfl

theorem LangChainAgent.finishReact_ok_some (t : Str) (loc : Str) (w : Weather) (tr : List Call) :
    LangChainAgent.finishReact (some t) loc (some (WRes.ok w)) tr =
      ⟨t, tr ++ [Call.llmCompose], some w⟩ := rfl

theorem LangChainAgent.finishReact_ok_none (loc : Str) (w : Weather) (tr : List Call) :
    LangChainAgent.finishReact none loc (some (WRes.ok w)) tr =
      ⟨LangChainAgent.reactFallbackMsg loc w, tr ++ [Call.llmCompose], some w⟩ := rfl
theorem openai_reactBody_err (env : OpenAIAgent.OEnv) (loc : Str) (nw : Bool) (l e : Str)
    (hmem : Call.weather l ∈ (OpenAIAgent.reactBody env loc nw).trace)
    (herr : env.sv.getWeather l = WRes.err e) :
    (OpenAIAgent.reactBody env loc nw).reply = WeatherAgent.weatherErrorReply e ∨
    (OpenAIAgent.reactBody env loc nw).reply = couldntFindMsg l := by
  by_cases hretry : ¬ ((OpenAIAgent.reflect_on_data env.reflect).sufficient.getD true) = true ∧
      (OpenAIAgent.reflect_on_data env.reflect).suggested_action = some tryAltStr ∧
      (OpenAIAgent.reflect_on_data env.reflect).alternative_location.isSome = true
  · cases nw with
    | false =>
      simp only [OpenAIAgent.reactBody, Bool.false_eq_true, if_false, if_pos hretry,
        OpenAIAgent.generate_response_none] at hmem ⊢
      simp at hmem
    | true =>
      rcases hgw : env.sv.getWeather loc with w | m
      · rcases hga : env.sv.getWeather ((OpenAIAgent.reflect_on_data env.reflect).alternative_location.getD []) with w1 | m1
        · rcases hc : env.compose with _ | t
          · simp only [OpenAIAgent.reactBody, hgw, hga, hc, if_true, if_pos hretry,
              OpenAIAgent.generate_response_ok_none] at hmem ⊢
            simp at hmem
            rcases hmem with h | h
            · subst h
              rw [hgw] at herr
              simp at herr
            · subst h
              rw [hga] at herr
              simp at herr
          · simp only [OpenAIAgent.reactBody, hgw, hga, hc, if_true, if_pos hretry,
              OpenAIAgent.generate_response_ok_some] at hmem ⊢
            simp at hmem
            rcases hmem with h | h
            · subst h
              rw [hgw] at herr
              simp at herr
            · subst h
              rw [hga] at herr
              simp at herr
        · simp only [OpenAIAgent.reactBody, hgw, hga, if_true, if_pos hretry,
            OpenAIAgent.generate_response_err] at hmem ⊢
          simp at hmem
          rcases hmem with h | h
          · subst h
            rw [hgw] at herr
            simp at herr
          · subst h
            right
            rfl
      · simp only [OpenAIAgent.reactBody, hgw, if_true] at hmem ⊢
        simp at hmem
        subst hmem
        rw [hgw] at herr
        injection herr with h1
        left
        rw [h1]
  · cases nw with
    | false =>
      simp only [OpenAIAgent.reactBody, Bool.false_eq_true, if_false, if_neg hretry,
        OpenAIAgent.generate_response_none] at hmem ⊢
      simp at hmem
    | true =>
      rcases hgw : env.sv.getWeather loc with w | m
      · rcases hc : env.compose with _ | t
        · simp only [OpenAIAgent.reactBody, hgw, hc, if_true, if_neg hretry,
            OpenAIAgent.generate_response_ok_none] at hmem ⊢
          simp at hmem
          subst hmem
          rw [hgw] at herr
          simp at herr
        · simp only [OpenAIAgent.reactBody, hgw, hc, if_true, if_neg hretry,
            OpenAIAgent.generate_response_ok_some] at hmem ⊢
          simp at hmem
          subst hmem
          rw [hgw] at herr
          simp at herr
      · simp only [OpenAIAgent.reactBody, hgw, if_true] at hmem ⊢
        simp at hmem
        subst hmem
        rw [hgw] at herr
        injection herr with h1
        left
        rw [h1]

theorem openai_react_err (env : OpenAIAgent.OEnv) (q l e : Str)
    (hmem : Call.weather l ∈ (OpenAIAgent.react env q).trace)
    (herr : env.sv.getWeather l = WRes.err e) :
    (OpenAIAgent.react env q).reply = WeatherAgent.weatherErrorReply e ∨
    (OpenAIAgent.react env q).reply = couldntFindMsg l := by
  by_cases hloc : (OpenAIAgent.reason_and_plan env.plan).location.getD [] = []
  · simp only [OpenAIAgent.react, if_pos hloc] at hmem
    simp at hmem
  · simp only [OpenAIAgent.react, if_neg hloc] at hmem ⊢
    exact openai_reactBody_err env _ _ l e hmem herr

theorem openai_reactBody_used (env : OpenAIAgent.OEnv) (loc : Str) (nw : Bool) (w : Weather)
    (h : (OpenAIAgent.reactBody env loc nw).used = some w) :
    ∃ l, Call.weather l ∈ (OpenAIAgent.reactBody env loc nw).trace ∧
      env.sv.getWeather l = WRes.ok w := by
  by_cases hretry : ¬ ((OpenAIAgent.reflect_on_data env.reflect).sufficient.getD true) = true ∧
      (OpenAIAgent.reflect_on_data env.reflect).suggested_action = some tryAltStr ∧
      (OpenAIAgent.reflect_on_data env.reflect).alternative_location.isSome = true
  · cases nw with
    | false =>
      simp only [OpenAIAgent.reactBody, Bool.false_eq_true, if_false, if_pos hretry,
        OpenAIAgent.generate_response_none] at h
      simp at h
    | true =>
      rcases hgw : env.sv.getWeather loc with w0 | m
      · rcases hga : env.sv.getWeather ((OpenAIAgent.reflect_on_data env.reflect).alternative_location.getD []) with w1 | m1
        · rcases hc : env.compose with _ | t
          · simp only [OpenAIAgent.reactBody, hgw, hga, hc, if_true, if_pos hretry,
              OpenAIAgent.generate_response_ok_none] at h ⊢
            simp at h
            subst h
            exact ⟨_, by simp, hga⟩
          · simp only [OpenAIAgent.reactBody, hgw, hga, hc, if_true, if_pos hretry,
              OpenAIAgent.generate_response_ok_some] at h ⊢
            simp at h
            subst h
            exact ⟨_, by simp, hga⟩
        · simp only [OpenAIAgent.reactBody, hgw, hga, if_true, if_pos hretry,
            OpenAIAgent.generate_response_err] at h
          simp at h
      · simp only [OpenAIAgent.reactBody, hgw, if_true] at h
        simp at h
  · cases nw with
    | false =>
      simp only [OpenAIAgent.reactBody, Bool.false_eq_true, if_false, if_neg hretry,
        OpenAIAgent.generate_response_none] at h
      simp at h
    | true =>
      rcases hgw : env.sv.getWeather loc with w0 | m
      · rcases hc : env.compose with _ | t
        · simp only [OpenAIAgent.reactBody, hgw, hc, if_true, if_neg hretry,
            OpenAIAgent.generate_response_ok_none] at h ⊢
          simp at h
          subst h
          exact ⟨_, by simp, hgw⟩
        · simp only [OpenAIAgent.reactBody, hgw, hc, if_true, if_neg hretry,
            OpenAIAgent.generate_response_ok_some] at h ⊢
          simp at h
          subst h
          exact ⟨_, by simp, hgw⟩
      · simp only [OpenAIAgent.reactBody, hgw, if_true] at h
        simp at h

theorem openai_react_used (env : OpenAIAgent.OEnv) (q : Str) (w : Weather)
    (h : (OpenAIAgent.react env q).used = some w) :
    ∃ l, Call.weather l ∈ (OpenAIAgent.react env q).trace ∧
      env.sv.getWeather l = WRes.ok w := by
  by_cases hloc : (OpenAIAgent.reason_and_plan env.plan).location.getD [] = []
  · simp only [OpenAIAgent.react, if_pos hloc] at h
    simp at h
  · simp only [OpenAIAgent.react, if_neg hloc] at h ⊢
    exact openai_reactBody_used env _ _ w h
theorem langchain_reactBody_err (env : LangChainAgent.LEnv) (loc : Str) (nw ni : Bool) (l e : Str)
    (hmem : Call.weather l ∈ (LangChainAgent.reactBody env loc nw ni).trace)
    (herr : env.sv.getWeather l = WRes.err e) :
    (LangChainAgent.reactBody env loc nw ni).reply = WeatherAgent.weatherErrorReply e ∨
    (LangChainAgent.reactBody env loc nw ni).reply = couldntFindMsg l := by
  rcases hrt : env.reflectText with _ | rtxt
  · cases nw with
    | false =>
      cases ni <;>
      · simp only [LangChainAgent.reactBody, Bool.false_eq_true, if_false, hrt,
          LangChainAgent.finishReact_none] at hmem ⊢
        simp at hmem
    | true =>
      rcases hgw : env.sv.getWeather loc with w0 | m
      · cases ni <;>
        · rcases hc : env.compose with _ | t <;>
          · simp only [LangChainAgent.reactBody, hgw, hc, hrt, if_true,
              LangChainAgent.finishReact_ok_none, LangChainAgent.finishReact_ok_some] at hmem ⊢
            simp at hmem
            subst hmem
            rw [hgw] at herr
            simp at herr
      · cases ni <;>
        · simp only [LangChainAgent.reactBody, hgw, hrt, if_true] at hmem ⊢
          simp at hmem
          subst hmem
          rw [hgw] at herr
          injection herr with h1
          left
          rw [h1]
  · by_cases hretry : ¬ ((LangChainAgent.parseReflection rtxt).is_sufficient = true) ∧
        (LangChainAgent.parseReflection rtxt).suggested_action = tryAltStr ∧
        (LangChainAgent.parseReflection rtxt).alternative_location ≠ []
    · cases nw with
      | false =>
        cases ni <;>
        · simp only [LangChainAgent.reactBody, Bool.false_eq_true, if_false, hrt,
            if_pos hretry, LangChainAgent.finishReact_none] at hmem ⊢
          simp at hmem
      | true =>
        rcases hgw : env.sv.getWeather loc with w0 | m
        · rcases hga : env.sv.getWeather (LangChainAgent.parseReflection rtxt).alternative_location with w1 | m1
          · cases ni <;>
            · rcases hc : env.compose with _ | t <;>
              · simp only [LangChainAgent.reactBody, hgw, hga, hc, hrt, if_true, if_pos hretry,
                  LangChainAgent.finishReact_ok_none, LangChainAgent.finishReact_ok_some] at hmem ⊢
                simp at hmem
                rcases hmem with h | h
                · subst h
                  rw [hgw] at herr
                  simp at herr
                · subst h
                  rw [hga] at herr
                  simp at herr
          · cases ni <;>
            · simp only [LangChainAgent.reactBody, hgw, hga, hrt, if_true, if_pos hretry,
                LangChainAgent.finishReact_err] at hmem ⊢
              simp at hmem
              rcases hmem with h | h
              · subst h
                rw [hgw] at herr
                simp at herr
              · subst h
                right
                rfl
        · cases ni <;>
          · simp only [LangChainAgent.reactBody, hgw, hrt, if_true] at hmem ⊢
            simp at hmem
            subst hmem
            rw [hgw] at herr
            injection herr with h1
            left
            rw [h1]
    · cases nw with
      | false =>
        cases ni <;>
        · simp only [LangChainAgent.reactBody, Bool.false_eq_true, if_false, hrt,
            if_neg hretry, LangChainAgent.finishReact_none] at hmem ⊢
          simp at hmem
      | true =>
        rcases hgw : env.sv.getWeather loc with w0 | m
        · cases ni <;>
          · rcases hc : env.compose with _ | t <;>
            · simp only [LangChainAgent.reactBody, hgw, hc, hrt, if_true, if_neg hretry,
                LangChainAgent.finishReact_ok_none, LangChainAgent.finishReact_ok_some] at hmem ⊢
              simp at hmem
              subst hmem
              rw [hgw] at herr
              simp at herr
        · cases ni <;>
          · simp only [LangChainAgent.reactBody, hgw, hrt, if_true] at hmem ⊢
            simp at hmem
            subst hmem
            rw [hgw] at herr
            injection herr with h1
            left
            rw [h1]

theorem langchain_react_err (env : LangChainAgent.LEnv) (q l e : Str)
    (hmem : Call.weather l ∈ (LangChainAgent.react env q).trace)
    (herr : env.sv.getWeather l = WRes.err e) :
    (LangChainAgent.react env q).reply = WeatherAgent.weatherErrorReply e ∨
    (LangChainAgent.react env q).reply = couldntFindMsg l := by
  rcases hpt : env.planText with _ | txt
  · simp only [LangChainAgent.react, hpt] at hmem ⊢
    exact langchain_reactBody_err env _ _ _ l e hmem herr
  · by_cases hloc : (LangChainAgent.parsePlanning txt).location = []
    · simp only [LangChainAgent.react, hpt, if_pos hloc] at hmem
      simp at hmem
    · simp only [LangChainAgent.react, hpt, if_neg hloc] at hmem ⊢
      exact langchain_reactBody_err env _ _ _ l e hmem herr

theorem langchain_reactBody_used (env : LangChainAgent.LEnv) (loc : Str) (nw ni : Bool)
    (w : Weather) (h : (LangChainAgent.reactBody env loc nw ni).used = some w) :
    ∃ l, Call.weather l ∈ (LangChainAgent.reactBody env loc nw ni).trace ∧
      env.sv.getWeather l = WRes.ok w := by
  rcases hrt : env.reflectText with _ | rtxt
  · cases nw with
    | false =>
      cases ni <;>
      · simp only [LangChainAgent.reactBody, Bool.false_eq_true, if_false, hrt,
          LangChainAgent.finishReact_none] at h
        simp at h
    | true =>
      rcases hgw : env.sv.getWeather loc with w0 | m
      · cases ni <;>
        · rcases hc : env.compose with _ | t <;>
          · simp only [LangChainAgent.reactBody, hgw, hc, hrt, if_true,
              LangChainAgent.finishReact_ok_none, LangChainAgent.finishReact_ok_some] at h ⊢
            simp at h
            subst h
            exact ⟨_, by simp, hgw⟩
      · cases ni <;>
        · simp only [LangChainAgent.reactBody, hgw, hrt, if_true] at h
          simp at h
  · by_cases hretry : ¬ ((LangChainAgent.parseReflection rtxt).is_sufficient = true) ∧
        (LangChainAgent.parseReflection rtxt).suggested_action = tryAltStr ∧
        (LangChainAgent.parseReflection rtxt).alternative_location ≠ []
    · cases nw with
      | false =>
        cases ni <;>
        · simp only [LangChainAgent.reactBody, Bool.false_eq_true, if_false, hrt,
            if_pos hretry, LangChainAgent.finishReact_none] at h
          simp at h
      | true =>
        rcases hgw : env.sv.getWeather loc with w0 | m
        · rcases hga : env.sv.getWeather (LangChainAgent.parseReflection rtxt).alternative_location with w1 | m1
          · cases ni <;>
            · rcases hc : env.compose with _ | t <;>
              · simp only [LangChainAgent.reactBody, hgw, hga, hc, hrt, if_true, if_pos hretry,
                  LangChainAgent.finishReact_ok_none, LangChainAgent.finishReact_ok_some] at h ⊢
                simp at h
                subst h
                exact ⟨_, by simp, hga⟩
          · cases ni <;>
            · simp only [LangChainAgent.reactBody, hgw, hga, hrt, if_true, if_pos hretry,
                LangChainAgent.finishReact_err] at h
              simp at h
        · cases ni <;>
          · simp only [LangChainAgent.reactBody, hgw, hrt, if_true] at h
            simp at h
    · cases nw with
      | false =>
        cases ni <;>
        · simp only [LangChainAgent.reactBody, Bool.false_eq_true, if_false, hrt,
            if_neg hretry, LangChainAgent.finishReact_none] at h
          simp at h
      | true =>
        rcases hgw : env.sv.getWeather loc with w0 | m
        · cases ni <;>
          · rcases hc : env.compose with _ | t <;>
            · simp only [LangChainAgent.reactBody, hgw, hc, hrt, if_true, if_neg hretry,
                LangChainAgent.finishReact_ok_none, LangChainAgent.finishReact_ok_some] at h ⊢
              simp at h
              subst h
              exact ⟨_, by simp, hgw⟩
        · cases ni <;>
          · simp only [LangChainAgent.reactBody, hgw, hrt, if_true] at h
            simp at h

theorem langchain_react_used (env : LangChainAgent.LEnv) (q : Str) (w : Weather)
    (h : (LangChainAgent.react env q).used = some w) :
    ∃ l, Call.weather l ∈ (LangChainAgent.react env q).trace ∧
      env.sv.getWeather l = WRes.ok w := by
  rcases hpt : env.planText with _ | txt
  · simp only [LangChainAgent.react, hpt] at h ⊢
    exact langchain_reactBody_used env _ _ _ w h
  · by_cases hloc : (LangChainAgent.parsePlanning txt).location = []
    · simp only [LangChainAgent.react, hpt, if_pos hloc] at h
      simp at h
    · simp only [LangChainAgent.react, hpt, if_neg hloc] at h ⊢
      exact langchain_reactBody_used env _ _ _ w h

theorem plain_agent_err (sv : Services) (q l e : Str)
    (hmem : Call.weather l ∈ (WeatherAgent.process_query sv q).2)
    (herr : sv.getWeather l = WRes.err e) :
    (WeatherAgent.process_query sv q).1 = WeatherAgent.weatherErrorReply e := by
  by_cases hloc : WeatherAgent.extract_location q = []
  · simp only [WeatherAgent.process_query, if_pos hloc] at hmem
    simp at hmem
  · rcases hgw : sv.getWeather (WeatherAgent.extract_location q) with w | m
    · simp only [WeatherAgent.process_query, if_neg hloc, hgw] at hmem ⊢
      simp at hmem
      subst hmem
      rw [hgw] at herr
      simp at herr
    · simp only [WeatherAgent.process_query, if_neg hloc, hgw] at hmem ⊢
      simp at hmem
      subst hmem
      rw [hgw] at herr
      injection herr with h1
      rw [h1]
/-- C2 counterexample: a concrete OpenAI ReAct run in which the
reflection-triggered re-fetch returns an error marker carrying the message
boom, yet the final reply is the generic no-weather sentence, which does not
contain that upstream message. -/
theorem claim_c2_counterexample :
    let E : OpenAIAgent.OEnv :=
      { plan := some ⟨some "springfield".data, some true⟩,
        sv :=
          { getWeather := fun l =>
              if l = "atlantis".data then WRes.err "boom".data
              else WRes.ok ⟨20, 18, 50, "clear".data⟩,
            getWiki := fun _ => KRes.err "nowiki".data },
        reflect := some ⟨some false, none, some tryAltStr, some "atlantis".data⟩,
        compose := some "nice".data }
    E.sv.getWeather "atlantis".data = WRes.err "boom".data ∧
    Call.weather "atlantis".data ∈ (OpenAIAgent.react E "weather".data).trace ∧
    (OpenAIAgent.react E "weather".data).reply = couldntFindMsg "atlantis".data ∧
    Py.hasSub "boom".data (OpenAIAgent.react E "weather".data).reply = false := by
  decide

/-- C2 (amended): whenever a performed weather fetch returns an error marker,
the plain WeatherAgent replies with the fixed error sentence containing the
literal upstream message; the two ReAct orchestrators reply either with that
sentence (initial fetch) or with the generic no-weather sentence for the
re-fetched location (reflection re-fetch), which omits the upstream message;
and in every run the nested numeric weather fields are dereferenced for
composition only for a payload fetched successfully. -/
theorem claim_c2_amended :
    (∀ (sv : Services) (q l e : Str),
      Call.weather l ∈ (WeatherAgent.process_query sv q).2 →
      sv.getWeather l = WRes.err e →
      (WeatherAgent.process_query sv q).1 = WeatherAgent.weatherErrorReply e ∧
        e <:+: (WeatherAgent.process_query sv q).1)
  ∧ (∀ (env : OpenAIAgent.OEnv) (q l e : Str),
      Call.weather l ∈ (OpenAIAgent.react env q).trace →
      env.sv.getWeather l = WRes.err e →
      (OpenAIAgent.react env q).reply = WeatherAgent.weatherErrorReply e ∨
      (OpenAIAgent.react env q).reply = couldntFindMsg l)
  ∧ (∀ (env : LangChainAgent.LEnv) (q l e : Str),
      Call.weather l ∈ (LangChainAgent.react env q).trace →
      env.sv.getWeather l = WRes.err e →
      (LangChainAgent.react env q).reply = WeatherAgent.weatherErrorReply e ∨
      (LangChainAgent.react env q).reply = couldntFindMsg l)
  ∧ (∀ (env : OpenAIAgent.OEnv) (q : Str) (w : Weather),
      (OpenAIAgent.react env q).used = some w →
      ∃ l, Call.weather l ∈ (OpenAIAgent.react env q).trace ∧
        env.sv.getWeather l = WRes.ok w)
  ∧ (∀ (env : LangChainAgent.LEnv) (q : Str) (w : Weather),
      (LangChainAgent.react env q).used = some w →
      ∃ l, Call.weather l ∈ (LangChainAgent.react env q).trace ∧
        env.sv.getWeather l = WRes.ok w) := by
  refine ⟨?_, openai_react_err, langchain_react_err, openai_react_used, langchain_react_used⟩
  intro sv q l e hmem herr
  have h := plain_agent_err sv q l e hmem herr
  refine ⟨h, ?_⟩
  rw [h]
  exact (List.suffix_append _ e).isInfix

/-- Witness for the amended C2: the plain agent on a failing weather service
propagates the upstream message boom into the reply. -/
theorem claim_c2_amended_witness :
    (WeatherAgent.process_query
      ⟨fun _ => WRes.err "boom".data, fun _ => KRes.err []⟩
      "weather in paris".data).1 = WeatherAgent.weatherErrorReply "boom".data ∧
    "boom".data <:+:
      (WeatherAgent.process_query
        ⟨fun _ => WRes.err "boom".data, fun _ => KRes.err []⟩
        "weather in paris".data).1 :=
  claim_c2_amended.1
    ⟨fun _ => WRes.err "boom".data, fun _ => KRes.err []⟩
    "weather in paris".data "paris".data "boom".data (by decide) (by decide)
/-- Does a call fetch weather? (statement apparatus for the retry bound). -/
def isWeatherCall : Call → Bool
  | .weather _ => true
  | _ => false

/-- Does a call fetch encyclopedia data? -/
def isWikiCall : Call → Bool
  | .wiki _ => true
  | _ => false

/-- Is a call the reflection completion? -/
def isReflectCall : Call → Bool
  | .llmReflect => true
  | _ => false

theorem openai_generate_counts (c : Option Str) (loc : Str) (wd : Option WRes) (tr : List Call) :
    ((OpenAIAgent.generate_response c loc wd tr).trace).countP isWeatherCall =
      tr.countP isWeatherCall ∧
    ((OpenAIAgent.generate_response c loc wd tr).trace).countP isWikiCall =
      tr.countP isWikiCall ∧
    ((OpenAIAgent.generate_response c loc wd tr).trace).countP isReflectCall =
      tr.countP isReflectCall := by
  rcases wd with _ | wr
  · exact ⟨rfl, rfl, rfl⟩
  rcases wr with w | m
  · rcases c with _ | t <;>
      refine ⟨?_, ?_, ?_⟩ <;>
      simp [OpenAIAgent.generate_response, List.countP_append, List.countP_cons,
        isWeatherCall, isWikiCall, isReflectCall]
  · exact ⟨rfl, rfl, rfl⟩

theorem langchain_finish_counts (c : Option Str) (loc : Str) (wd : Option WRes) (tr : List Call) :
    ((LangChainAgent.finishReact c loc wd tr).trace).countP isWeatherCall =
      tr.countP isWeatherCall ∧
    ((LangChainAgent.finishReact c loc wd tr).trace).countP isWikiCall =
      tr.countP isWikiCall ∧
    ((LangChainAgent.finishReact c loc wd tr).trace).countP isReflectCall =
      tr.countP isReflectCall := by
  rcases wd with _ | wr
  · exact ⟨rfl, rfl, rfl⟩
  rcases wr with w | m
  · rcases c with _ | t <;>
      refine ⟨?_, ?_, ?_⟩ <;>
      simp [LangChainAgent.finishReact, List.countP_append, List.countP_cons,
        isWeatherCall, isWikiCall, isReflectCall]
  · exact ⟨rfl, rfl, rfl⟩

theorem openai_reactBody_counts (env : OpenAIAgent.OEnv) (loc : Str) (nw : Bool) :
    (OpenAIAgent.reactBody env loc nw).trace.countP isWeatherCall ≤ 2 ∧
    (OpenAIAgent.reactBody env loc nw).trace.countP isWikiCall ≤ 2 ∧
    (OpenAIAgent.reactBody env loc nw).trace.countP isReflectCall ≤ 1 := by
  by_cases hretry : ¬ ((OpenAIAgent.reflect_on_data env.reflect).sufficient.getD true) = true ∧
      (OpenAIAgent.reflect_on_data env.reflect).suggested_action = some tryAltStr ∧
      (OpenAIAgent.reflect_on_data env.reflect).alternative_location.isSome = true
  · cases nw with
    | false =>
      simp only [OpenAIAgent.reactBody, Bool.false_eq_true, if_false, if_pos hretry]
      refine ⟨?_, ?_, ?_⟩
      · rw [(openai_generate_counts _ _ _ _).1]
        simp [List.countP_append, List.countP_cons, isWeatherCall]
      · rw [(openai_generate_counts _ _ _ _).2.1]
        simp [List.countP_append, List.countP_cons, isWikiCall]
      · rw [(openai_generate_counts _ _ _ _).2.2]
        simp [List.countP_append, List.countP_cons, isReflectCall]
    | true =>
      rcases hgw : env.sv.getWeather loc with w0 | m
      · simp only [OpenAIAgent.reactBody, hgw, if_true, if_pos hretry]
        refine ⟨?_, ?_, ?_⟩
        · rw [(openai_generate_counts _ _ _ _).1]
          simp [List.countP_append, List.countP_cons, isWeatherCall]
        · rw [(openai_generate_counts _ _ _ _).2.1]
          simp [List.countP_append, List.countP_cons, isWikiCall]
        · rw [(openai_generate_counts _ _ _ _).2.2]
          simp [List.countP_append, List.countP_cons, isReflectCall]
      · simp only [OpenAIAgent.reactBody, hgw, if_true]
        refine ⟨?_, ?_, ?_⟩ <;>
          simp [List.countP_append, List.countP_cons, isWeatherCall, isWikiCall, isReflectCall]
  · cases nw with
    | false =>
      simp only [OpenAIAgent.reactBody, Bool.false_eq_true, if_false, if_neg hretry]
      refine ⟨?_, ?_, ?_⟩
      · rw [(openai_generate_counts _ _ _ _).1]
        simp [List.countP_append, List.countP_cons, isWeatherCall]
      · rw [(openai_generate_counts _ _ _ _).2.1]
        simp [List.countP_append, List.countP_cons, isWikiCall]
      · rw [(openai_generate_counts _ _ _ _).2.2]
        simp [List.countP_append, List.countP_cons, isReflectCall]
    | true =>
      rcases hgw : env.sv.getWeather loc with w0 | m
      · simp only [OpenAIAgent.reactBody, hgw, if_true, if_neg hretry]
        refine ⟨?_, ?_, ?_⟩
        · rw [(openai_generate_counts _ _ _ _).1]
          simp [List.countP_append, List.countP_cons, isWeatherCall]
        · rw [(openai_generate_counts _ _ _ _).2.1]
          simp [List.countP_append, List.countP_cons, isWikiCall]
        · rw [(openai_generate_counts _ _ _ _).2.2]
          simp [List.countP_append, List.countP_cons, isReflectCall]
      · simp only [OpenAIAgent.reactBody, hgw, if_true]
        refine ⟨?_, ?_, ?_⟩ <;>
          simp [List.countP_append, List.countP_cons, isWeatherCall, isWikiCall, isReflectCall]

theorem langchain_reactBody_counts (env : LangChainAgent.LEnv) (loc : Str) (nw ni : Bool) :
    (LangChainAgent.reactBody env loc nw ni).trace.countP isWeatherCall ≤ 2 ∧
    (LangChainAgent.reactBody env loc nw ni).trace.countP isWikiCall ≤ 2 ∧
    (LangChainAgent.reactBody env loc nw ni).trace.countP isReflectCall ≤ 1 := by
  rcases hrt : env.reflectText with _ | rtxt
  · cases nw with
    | false =>
      cases ni <;>
      · simp only [LangChainAgent.reactBody, Bool.false_eq_true, if_false, if_true, hrt]
        refine ⟨?_, ?_, ?_⟩
        · rw [(langchain_finish_counts _ _ _ _).1]
          simp [List.countP_append, List.countP_cons, isWeatherCall]
        · rw [(langchain_finish_counts _ _ _ _).2.1]
          simp [List.countP_append, List.countP_cons, isWikiCall]
        · rw [(langchain_finish_counts _ _ _ _).2.2]
          simp [List.countP_append, List.countP_cons, isReflectCall]
    | true =>
      rcases hgw : env.sv.getWeather loc with w0 | m
      · cases ni <;>
        · simp only [LangChainAgent.reactBody, hgw, Bool.false_eq_true, if_false, if_true, hrt]
          refine ⟨?_, ?_, ?_⟩
          · rw [(langchain_finish_counts _ _ _ _).1]
            simp [List.countP_append, List.countP_cons, isWeatherCall]
          · rw [(langchain_finish_counts _ _ _ _).2.1]
            simp [List.countP_append, List.countP_cons, isWikiCall]
          · rw [(langchain_finish_counts _ _ _ _).2.2]
            simp [List.countP_append, List.countP_cons, isReflectCall]
      · cases ni <;>
        · simp only [LangChainAgent.reactBody, hgw, if_true]
          refine ⟨?_, ?_, ?_⟩ <;>
            simp [List.countP_append, List.countP_cons, isWeatherCall, isWikiCall, isReflectCall]
  · by_cases hretry : ¬ ((LangChainAgent.parseReflection rtxt).is_sufficient = true) ∧
        (LangChainAgent.parseReflection rtxt).suggested_action = tryAltStr ∧
        (LangChainAgent.parseReflection rtxt).alternative_location ≠ []
    · cases nw with
      | false =>
        cases ni <;>
        · simp only [LangChainAgent.reactBody, Bool.false_eq_true, if_false, if_true, hrt,
            if_pos hretry]
          refine ⟨?_, ?_, ?_⟩
          · rw [(langchain_finish_counts _ _ _ _).1]
            simp [List.countP_append, List.countP_cons, isWeatherCall]
          · rw [(langchain_finish_counts _ _ _ _).2.1]
            simp [List.countP_append, List.countP_cons, isWikiCall]
          · rw [(langchain_finish_counts _ _ _ _).2.2]
            simp [List.countP_append, List.countP_cons, isReflectCall]
      | true =>
        rcases hgw : env.sv.getWeather loc with w0 | m
        · cases ni <;>
          · simp only [LangChainAgent.reactBody, hgw, Bool.false_eq_true, if_false, if_true, hrt,
              if_pos hretry]
            refine ⟨?_, ?_, ?_⟩
            · rw [(langchain_finish_counts _ _ _ _).1]
              simp [List.countP_append, List.countP_cons, isWeatherCall]
            · rw [(langchain_finish_counts _ _ _ _).2.1]
              simp [List.countP_append, List.countP_cons, isWikiCall]
            · rw [(langchain_finish_counts _ _ _ _).2.2]
              simp [List.countP_append, List.countP_cons, isReflectCall]
        · cases ni <;>
          · simp only [LangChainAgent.reactBody, hgw, if_true]
            refine ⟨?_, ?_, ?_⟩ <;>
              simp [List.countP_append, List.countP_cons, isWeatherCall, isWikiCall, isReflectCall]
    · cases nw with
      | false =>
        cases ni <;>
        · simp only [LangChainAgent.reactBody, Bool.false_eq_true, if_false, if_true, hrt,
            if_neg hretry]
          refine ⟨?_, ?_, ?_⟩
          · rw [(langchain_finish_counts _ _ _ _).1]
            simp [List.countP_append, List.countP_cons, isWeatherCall]
          · rw [(langchain_finish_counts _ _ _ _).2.1]
            simp [List.countP_append, List.countP_cons, isWikiCall]
          · rw [(langchain_finish_counts _ _ _ _).2.2]
            simp [List.countP_append, List.countP_cons, isReflectCall]
      | true =>
        rcases hgw : env.sv.getWeather loc with w0 | m
        · cases ni <;>
          · simp only [LangChainAgent.reactBody, hgw, Bool.false_eq_true, if_false, if_true, hrt,
              if_neg hretry]
            refine ⟨?_, ?_, ?_⟩
            · rw [(langchain_finish_counts _ _ _ _).1]
              simp [List.countP_append, List.countP_cons, isWeatherCall]
            · rw [(langchain_finish_counts _ _ _ _).2.1]
              simp [List.countP_append, List.countP_cons, isWikiCall]
            · rw [(langchain_finish_counts _ _ _ _).2.2]
              simp [List.countP_append, List.countP_cons, isReflectCall]
        · cases ni <;>
          · simp only [LangChainAgent.reactBody, hgw, if_true]
            refine ⟨?_, ?_, ?_⟩ <;>
              simp [List.countP_append, List.countP_cons, isWeatherCall, isWikiCall, isReflectCall]

/-- C3: per processed query, each ReAct orchestrator performs at most two
weather fetches and two encyclopedia fetches (the planned fetch plus at most
one reflection-triggered re-fetch) and at most one reflection completion,
whatever the reflection result contains: the pipeline never loops from
reflection back to fetching more than once. -/
theorem claim_c3_reflection_retry_at_most_once (oenv : OpenAIAgent.OEnv)
    (lenv : LangChainAgent.LEnv) (q1 q2 : Str) :
    ((OpenAIAgent.react oenv q1).trace.countP isWeatherCall ≤ 2 ∧
     (OpenAIAgent.react oenv q1).trace.countP isWikiCall ≤ 2 ∧
     (OpenAIAgent.react oenv q1).trace.countP isReflectCall ≤ 1)
  ∧ ((LangChainAgent.react lenv q2).trace.countP isWeatherCall ≤ 2 ∧
     (LangChainAgent.react lenv q2).trace.countP isWikiCall ≤ 2 ∧
     (LangChainAgent.react lenv q2).trace.countP isReflectCall ≤ 1) := by
  constructor
  · by_cases hloc : (OpenAIAgent.reason_and_plan oenv.plan).location.getD [] = []
    · simp only [OpenAIAgent.react, if_pos hloc]
      refine ⟨?_, ?_, ?_⟩ <;> simp [List.countP_cons, isWeatherCall, isWikiCall, isReflectCall]
    · simp only [OpenAIAgent.react, if_neg hloc]
      exact openai_reactBody_counts oenv _ _
  · rcases hpt : lenv.planText with _ | txt
    · simp only [LangChainAgent.react, hpt]
      exact langchain_reactBody_counts lenv _ _ _
    · by_cases hloc : (LangChainAgent.parsePlanning txt).location = []
      · simp only [LangChainAgent.react, hpt, if_pos hloc]
        refine ⟨?_, ?_, ?_⟩ <;> simp [List.countP_cons, isWeatherCall, isWikiCall, isReflectCall]
      · simp only [LangChainAgent.react, hpt, if_neg hloc]
        exact langchain_reactBody_counts lenv _ _ _
namespace LangChainAgent

/-- The location scan of _process_query_cot (lines 443-453): the last
LOCATION line wins; lines are not stripped in this loop.  (The Step lines
collect reasoning text that only feeds the response prompt.) -/
def parseCotLocation (text : Str) : Str :=
  (Py.splitLines (Py.strip text)).foldl
    (fun loc line =>
      if "LOCATION:".data.isPrefixOf line then Py.strip (Py.replace "LOCATION:".data [] line)
      else loc) []

/-- The CoT clarification message (line 471). -/
def cotClarifyMsg : Str :=
  ("After careful consideration, I couldn\x27t identify a location in your query. " ++
   "Please specify a city or place.").data

/-- The composer-failure reply of _process_query_cot (line 607). -/
def cotFallbackMsg (location : Str) (w : Weather) : Str :=
  "Through chain-of-thought reasoning, I identified your location as ".data ++ location ++
  ". Currently, the temperature is ".data ++ intStr w.temp ++ "°C, feels like ".data ++
  intStr w.feels_like ++ "°C, with ".data ++ w.description ++ " and ".data ++
  intStr w.humidity ++
  "% humidity.\n\nSources: [Weather data from OpenWeatherMap](".data ++
  weatherSourceUrl ++ ")".data

/-- The data-gathering and response tail of _process_query_cot (lines
485-607): the weather fetch always runs and an error marker returns the
fixed error reply; otherwise the wiki fetch runs and the numeric fields feed
the completion call, whose failure yields the deterministic CoT template. -/
def cotBody (env : LEnv) (location : Str) : RunOut :=
  match env.sv.getWeather location with
  | .err e => ⟨WeatherAgent.weatherErrorReply e, [Call.llmPlan, Call.weather location], none⟩
  | .ok w =>
    match env.compose with
    | some text =>
      ⟨text, [Call.llmPlan, Call.weather location, Call.wiki location, Call.llmCompose], some w⟩
    | none =>
      ⟨cotFallbackMsg location w,
       [Call.llmPlan, Call.weather location, Call.wiki location, Call.llmCompose], some w⟩

/-- Embeds SimpleLangChainWeatherAgent._process_query_cot (lines 404-607):
a successful completion is scanned for a LOCATION line, an empty scan falls
back to the simple extraction and only then an empty location returns the
CoT clarification; a raised completion goes straight to the simple
extraction with no emptiness check (lines 472-483). -/
def cot (env : LEnv) (query : Str) : RunOut :=
  match env.planText with
  | some txt =>
    let location0 := parseCotLocation txt
    let location := if location0 = [] then simple_extract query else location0
    if location = [] then ⟨cotClarifyMsg, [Call.llmPlan], none⟩
    else cotBody env location
  | none => cotBody env (simple_extract query)

end LangChainAgent

theorem langchain_finishReact_mem (c : Option Str) (loc : Str) (wd : Option WRes)
    (tr : List Call) (x : Call) (h : x ∈ tr) :
    x ∈ (LangChainAgent.finishReact c loc wd tr).trace := by
  rcases wd with _ | wr
  · exact h
  rcases wr with w | m
  · rcases c with _ | t <;> exact List.mem_append_left _ h
  · exact h

theorem langchain_reactBody_mem_weather (env : LangChainAgent.LEnv) (loc : Str) (ni : Bool) :
    Call.weather loc ∈ (LangChainAgent.reactBody env loc true ni).trace := by
  rcases hgw : env.sv.getWeather loc with w0 | m
  · rcases hrt : env.reflectText with _ | rtxt
    · simp only [LangChainAgent.reactBody, hgw, hrt, if_true]
      exact langchain_finishReact_mem _ _ _ _ _ (by simp)
    · by_cases hretry : ¬ ((LangChainAgent.parseReflection rtxt).is_sufficient = true) ∧
          (LangChainAgent.parseReflection rtxt).suggested_action = tryAltStr ∧
          (LangChainAgent.parseReflection rtxt).alternative_location ≠ []
      · simp only [LangChainAgent.reactBody, hgw, hrt, if_true, if_pos hretry]
        exact langchain_finishReact_mem _ _ _ _ _ (by simp)
      · simp only [LangChainAgent.reactBody, hgw, hrt, if_true, if_neg hretry]
        exact langchain_finishReact_mem _ _ _ _ _ (by simp)
  · simp [LangChainAgent.reactBody, hgw]

theorem langchain_cotBody_mem_weather (env : LangChainAgent.LEnv) (loc : Str) :
    Call.weather loc ∈ (LangChainAgent.cotBody env loc).trace := by
  rcases hgw : env.sv.getWeather loc with w0 | m
  · rcases hc : env.compose with _ | t <;> simp [LangChainAgent.cotBody, hgw, hc]
  · simp [LangChainAgent.cotBody, hgw]

/-- C4 counterexample: in the LangChain ReAct pipeline a planning-LLM
failure does not produce an empty location: the fallback extracts paris from
the raw query and the orchestrator proceeds to call the weather service,
returning its error reply rather than the clarification. -/
theorem claim_c4_counterexample :
    let E : LangChainAgent.LEnv :=
      { planText := none,
        sv := { getWeather := fun _ => WRes.err "down".data,
                getWiki := fun _ => KRes.err "nowiki".data },
        reflectText := none, compose := none }
    LangChainAgent.simple_extract "weather in paris".data = "paris".data ∧
    Call.weather "paris".data ∈ (LangChainAgent.react E "weather in paris".data).trace ∧
    (LangChainAgent.react E "weather in paris".data).reply = WeatherAgent.weatherErrorReply "down".data ∧
    (LangChainAgent.react E "weather in paris".data).reply ≠ WeatherAgent.clarifyMsg := by
  decide

/-- C4 (amended): the OpenAI planner converts any LLM or parse failure into
an empty location and the orchestrator then returns the clarification with no
external call; the LangChain pipelines instead fall back to direct prefix
extraction from the raw query on an LLM failure and proceed to fetch
externally with that location, and only an in-try parse miss that still
leaves the location empty returns the clarification. -/
theorem claim_c4_amended :
    (∀ (sv : Services) (r : Option OpenAIAgent.ReflectJson) (c : Option Str) (q : Str),
      OpenAIAgent.react ⟨none, sv, r, c⟩ q = ⟨WeatherAgent.clarifyMsg, [Call.llmPlan], none⟩)
  ∧ (∀ (env : LangChainAgent.LEnv) (q : Str), env.planText = none →
      Call.weather (LangChainAgent.simple_extract q) ∈ (LangChainAgent.react env q).trace)
  ∧ (∀ (env : LangChainAgent.LEnv) (txt q : Str), env.planText = some txt →
      (LangChainAgent.parsePlanning txt).location = [] →
      LangChainAgent.react env q = ⟨WeatherAgent.clarifyMsg, [Call.llmPlan], none⟩)
  ∧ (∀ (env : LangChainAgent.LEnv) (txt q : Str), env.planText = some txt →
      LangChainAgent.parseCotLocation txt = [] → LangChainAgent.simple_extract q = [] →
      LangChainAgent.cot env q = ⟨LangChainAgent.cotClarifyMsg, [Call.llmPlan], none⟩)
  ∧ (∀ (env : LangChainAgent.LEnv) (q : Str), env.planText = none →
      Call.weather (LangChainAgent.simple_extract q) ∈ (LangChainAgent.cot env q).trace) := by
  refine ⟨?_, ?_, ?_, ?_, ?_⟩
  · intro sv r c q
    rfl
  · intro env q hpt
    simp only [LangChainAgent.react, hpt]
    exact langchain_reactBody_mem_weather env _ _
  · intro env txt q hpt hloc
    simp only [LangChainAgent.react, hpt, if_pos hloc]
  · intro env txt q hpt hcot hse
    simp only [LangChainAgent.cot, hpt, hcot, hse]
    simp [hse]
  · intro env q hpt
    simp only [LangChainAgent.cot, hpt]
    exact langchain_cotBody_mem_weather env _

/-- Witness for the amended C4: a planning text with no LOCATION line parses
to an empty location and the ReAct orchestrator answers with the
clarification and just the one attempted completion. -/
theorem claim_c4_amended_witness :
    LangChainAgent.react
      { planText := some "no structured fields here".data,
        sv := { getWeather := fun _ => WRes.err "down".data,
                getWiki := fun _ => KRes.err "nowiki".data },
        reflectText := none, compose := none } "hello".data =
      ⟨WeatherAgent.clarifyMsg, [Call.llmPlan], none⟩ :=
  claim_c4_amended.2.2.1
    { planText := some "no structured fields here".data,
      sv := { getWeather := fun _ => WRes.err "down".data,
              getWiki := fun _ => KRes.err "nowiki".data },
      reflectText := none, compose := none }
    "no structured fields here".data "hello".data rfl (by decide)
/-- C5 counterexample: in the OpenAI pipeline cited by the claim, a composer
LLM failure on the payload temp 20, feels-like 18, humidity 50, clear for
Paris yields the generic sentence, which contains none of the five required
substrings (no 20°C, 18°C, clear, 50%, nor the OpenWeatherMap URL). -/
theorem claim_c5_counterexample :
    let E : OpenAIAgent.OEnv :=
      { plan := some ⟨some "Paris".data, some true⟩,
        sv := { getWeather := fun _ => WRes.ok ⟨20, 18, 50, "clear".data⟩,
                getWiki := fun _ => KRes.ok "sum".data "u".data },
        reflect := some ⟨some true, none, none, none⟩,
        compose := none }
    (OpenAIAgent.react E "What is the weather in Paris?".data).used =
      some ⟨20, 18, 50, "clear".data⟩ ∧
    (OpenAIAgent.react E "What is the weather in Paris?".data).reply =
      OpenAIAgent.composeErrMsg "Paris".data ∧
    Py.hasSub "20°C".data (OpenAIAgent.react E "What is the weather in Paris?".data).reply
      = false ∧
    Py.hasSub "18°C".data (OpenAIAgent.react E "What is the weather in Paris?".data).reply
      = false ∧
    Py.hasSub "clear".data (OpenAIAgent.react E "What is the weather in Paris?".data).reply
      = false ∧
    Py.hasSub "50%".data (OpenAIAgent.react E "What is the weather in Paris?".data).reply
      = false ∧
    Py.hasSub weatherSourceUrl (OpenAIAgent.react E "What is the weather in Paris?".data).reply
      = false := by
  decide

set_option maxRecDepth 4000 in
/-- C5 (amended): when the composer completion fails on the payload temp 20,
feels-like 18, humidity 50, clear for Paris, the LangChain ReAct fallback
template deterministically produces a sentence containing 20°C, 18°C, clear,
50% and the literal OpenWeatherMap source URL; the OpenAI composer failure
path instead emits a generic sentence naming only the location and
containing none of those substrings. -/
theorem claim_c5_composer_fallback :
    (let L : LangChainAgent.LEnv :=
      { planText := some "LOCATION: Paris".data,
        sv := { getWeather := fun _ => WRes.ok ⟨20, 18, 50, "clear".data⟩,
                getWiki := fun _ => KRes.ok "sum".data "u".data },
        reflectText := some "SUFFICIENT: yes".data,
        compose := none }
    (LangChainAgent.react L "What is the weather in Paris?".data).reply =
      LangChainAgent.reactFallbackMsg "Paris".data ⟨20, 18, 50, "clear".data⟩ ∧
    Py.hasSub "20°C".data (LangChainAgent.react L "What is the weather in Paris?".data).reply
      = true ∧
    Py.hasSub "18°C".data (LangChainAgent.react L "What is the weather in Paris?".data).reply
      = true ∧
    Py.hasSub "clear".data (LangChainAgent.react L "What is the weather in Paris?".data).reply
      = true ∧
    Py.hasSub "50%".data (LangChainAgent.react L "What is the weather in Paris?".data).reply
      = true ∧
    Py.hasSub weatherSourceUrl
      (LangChainAgent.react L "What is the weather in Paris?".data).reply = true)
  ∧ (Py.hasSub "20°C".data (OpenAIAgent.composeErrMsg "Paris".data) = false ∧
     Py.hasSub "50%".data (OpenAIAgent.composeErrMsg "Paris".data) = false ∧
     Py.hasSub weatherSourceUrl (OpenAIAgent.composeErrMsg "Paris".data) = false) := by
  constructor
  · decide
  · decide
namespace LangChainAgent

/-- The two attributes the main scripts read from the agent object
(last_weather_data, last_location); a field is none when the attribute does
not exist on the object (hasattr is false). -/
structure Scratch where
  last_weather_data : Option WRes
  last_location : Option Str
deriving DecidableEq

/-- The attribute state of a freshly constructed agent:
SimpleLangChainWeatherAgent.__init__ (lines 17-38) sets only llm, the two
services, reasoning_types and debug, so neither scratch attribute exists. -/
def initScratch : Scratch := ⟨none, none⟩

/-- process_query and its three reasoning bodies (lines 40-875) contain no
assignment to any self attribute, so a processed query returns the attribute
state unchanged. -/
def process_query_react_st (s : Scratch) (env : LEnv) (q : Str) : RunOut × Scratch :=
  (react env q, s)

/-- Outcome of the clothing bridge in main_simple_langchain.py. -/
inductive BridgeOutcome where
  | recommend (weather_data : WRes) (location : Str)
  | apology
deriving DecidableEq

/-- The clothing bridge of main_simple_langchain.py (lines 54-71): the
recommendation runs only when both attributes exist on the agent; otherwise
the apology is printed. -/
def clothingBridge (agent : Scratch) : BridgeOutcome :=
  match agent.last_weather_data, agent.last_location with
  | some w, some l => .recommend w l
  | _, _ => .apology

end LangChainAgent

/-- C6 (code bug evidence): the LangChain orchestrator never writes the two
scratch attributes: after any processed query a fresh agent still carries
neither attribute, and the clothing bridge of the main script therefore
always takes the apology branch, contradicting the claim that the fields
exist and hold the last query data after every processed query. -/
theorem claim_c6_scratch_fields_never_written :
    (∀ (s : LangChainAgent.Scratch) (env : LangChainAgent.LEnv) (q : Str),
      (LangChainAgent.process_query_react_st s env q).2 = s)
  ∧ (∀ (env : LangChainAgent.LEnv) (q : Str),
      LangChainAgent.clothingBridge
        (LangChainAgent.process_query_react_st LangChainAgent.initScratch env q).2 =
        LangChainAgent.BridgeOutcome.apology) := by
  exact ⟨fun _ _ _ => rfl, fun _ _ => rfl⟩

namespace WikipediaService

/-- A raised Python exception: either an instance of
wikipedia.exceptions.WikipediaException (the only class the except clause
names), or any other exception (for example a requests connection error). -/
inductive PyExn where
  | wikipediaException (msg : Str)
  | otherException (msg : Str)
deriving DecidableEq

/-- Result of one call into the wikipedia library: a value or a raised
exception. -/
inductive PyRes (α : Type) where
  | ok (a : α)
  | raised (e : PyExn)

/-- The three library calls get_location_info performs, as oracles. -/
structure WikiEnv where
  search : Str → PyRes (List Str)
  pageUrl : Str → PyRes Str
  summary : Str → PyRes Str

/-- What a call to get_location_info produces: the summary/url dictionary,
the error-marker dictionary, or an exception propagating out of the call. -/
inductive WikiOut where
  | data (summary url : Str)
  | errMarker (msg : Str)
  | uncaught (msg : Str)
deriving DecidableEq

/-- Embeds WikipediaService.get_location_info (src/api_services.py lines
37-53): search, then page (for the url), then summary, in source order; an
empty hit list returns the no-information marker, a raised
WikipediaException returns the error marker, and any other raised exception
propagates uncaught. -/
def get_location_info (env : WikiEnv) (location : Str) : WikiOut :=
  match env.search location with
  | .raised (.wikipediaException m) => .errMarker ("Wikipedia error: ".data ++ m)
  | .raised (.otherException m) => .uncaught m
  | .ok [] => .errMarker ("No Wikipedia information found for ".data ++ location)
  | .ok (first :: _) =>
    match env.pageUrl first with
    | .raised (.wikipediaException m) => .errMarker ("Wikipedia error: ".data ++ m)
    | .raised (.otherException m) => .uncaught m
    | .ok url =>
      match env.summary first with
      | .raised (.wikipediaException m) => .errMarker ("Wikipedia error: ".data ++ m)
      | .raised (.otherException m) => .uncaught m
      | .ok s => .data s url

/-- Is the outcome a normal return (success value or error marker)? -/
def isMarkerOrData : WikiOut → Bool
  | .uncaught _ => false
  | _ => true

/-- The first non-WikipediaException raised during the lookup, if any
(statement apparatus). -/
def firstOtherExn (env : WikiEnv) (location : Str) : Option Str :=
  match env.search location with
  | .raised (.otherException m) => some m
  | .raised (.wikipediaException _) => none
  | .ok [] => none
  | .ok (first :: _) =>
    match env.pageUrl first with
    | .raised (.otherException m) => some m
    | .raised (.wikipediaException _) => none
    | .ok _ =>
      match env.summary first with
      | .raised (.otherException m) => some m
      | _ => none

end WikipediaService

/-- C7 counterexample: a lookup whose search raises a non-Wikipedia
exception (a connection failure) propagates that exception out of
get_location_info instead of converting it into an error marker. -/
theorem claim_c7_counterexample :
    let E : WikipediaService.WikiEnv :=
      { search := fun _ =>
          WikipediaService.PyRes.raised
            (WikipediaService.PyExn.otherException "connection refused".data),
        pageUrl := fun _ => WikipediaService.PyRes.ok [],
        summary := fun _ => WikipediaService.PyRes.ok [] }
    WikipediaService.get_location_info E "paris".data =
      WikipediaService.WikiOut.uncaught "connection refused".data ∧
    WikipediaService.isMarkerOrData (WikipediaService.get_location_info E "paris".data) =
      false := by
  exact ⟨rfl, rfl⟩

/-- C7 (amended): get_location_info returns the summary/url value or an
error marker whenever no step raises an exception outside
WikipediaException: an empty hit list and a raised WikipediaException give
markers with the source messages; but a raised exception of any other class
propagates out of the call uncaught. -/
theorem claim_c7_wiki_error_marker (env : WikipediaService.WikiEnv) (loc : Str) :
    (WikipediaService.firstOtherExn env loc = none →
      WikipediaService.isMarkerOrData (WikipediaService.get_location_info env loc) = true)
  ∧ (∀ m, WikipediaService.firstOtherExn env loc = some m →
      WikipediaService.get_location_info env loc = WikipediaService.WikiOut.uncaught m)
  ∧ (env.search loc = WikipediaService.PyRes.ok [] →
      WikipediaService.get_location_info env loc =
        WikipediaService.WikiOut.errMarker
          ("No Wikipedia information found for ".data ++ loc))
  ∧ (∀ m, env.search loc = WikipediaService.PyRes.raised
        (WikipediaService.PyExn.wikipediaException m) →
      WikipediaService.get_location_info env loc =
        WikipediaService.WikiOut.errMarker ("Wikipedia error: ".data ++ m)) := by
  rcases hs : env.search loc with hits | e
  · rcases hits with _ | ⟨first, rest⟩
    · refine ⟨fun _ => ?_, fun m hm => ?_, fun _ => ?_, fun m hm => ?_⟩
      · simp [WikipediaService.get_location_info, hs, WikipediaService.isMarkerOrData]
      · simp [WikipediaService.firstOtherExn, hs] at hm
      · simp [WikipediaService.get_location_info, hs]
      · simp at hm
    · rcases hp : env.pageUrl first with url | e1
      · rcases hsum : env.summary first with s | e2
        · refine ⟨fun _ => ?_, fun m hm => ?_, fun hm => ?_, fun m hm => ?_⟩
          · simp [WikipediaService.get_location_info, hs, hp, hsum,
              WikipediaService.isMarkerOrData]
          · simp [WikipediaService.firstOtherExn, hs, hp, hsum] at hm
          · simp at hm
          · simp at hm
        · rcases e2 with m2 | m2
          · refine ⟨fun _ => ?_, fun m hm => ?_, fun hm => ?_, fun m hm => ?_⟩
            · simp [WikipediaService.get_location_info, hs, hp, hsum,
                WikipediaService.isMarkerOrData]
            · simp [WikipediaService.firstOtherExn, hs, hp, hsum] at hm
            · simp at hm
            · simp at hm
          · refine ⟨fun h => ?_, fun m hm => ?_, fun hm => ?_, fun m hm => ?_⟩
            · simp [WikipediaService.firstOtherExn, hs, hp, hsum] at h
            · simp [WikipediaService.firstOtherExn, hs, hp, hsum] at hm
              subst hm
              simp [WikipediaService.get_location_info, hs, hp, hsum]
            · simp at hm
            · simp at hm
      · rcases e1 with m1 | m1
        · refine ⟨fun _ => ?_, fun m hm => ?_, fun hm => ?_, fun m hm => ?_⟩
          · simp [WikipediaService.get_location_info, hs, hp,
              WikipediaService.isMarkerOrData]
          · simp [WikipediaService.firstOtherExn, hs, hp] at hm
          · simp at hm
          · simp at hm
        · refine ⟨fun h => ?_, fun m hm => ?_, fun hm => ?_, fun m hm => ?_⟩
          · simp [WikipediaService.firstOtherExn, hs, hp] at h
          · simp [WikipediaService.firstOtherExn, hs, hp] at hm
            subst hm
            simp [WikipediaService.get_location_info, hs, hp]
          · simp at hm
          · simp at hm
  · rcases e with m | m
    · refine ⟨fun _ => ?_, fun m1 hm => ?_, fun hm => ?_, fun m1 hm => ?_⟩
      · simp [WikipediaService.get_location_info, hs, WikipediaService.isMarkerOrData]
      · simp [WikipediaService.firstOtherExn, hs] at hm
      · simp at hm
      · simp at hm
        subst hm
        simp [WikipediaService.get_location_info, hs]
    · refine ⟨fun h => ?_, fun m1 hm => ?_, fun hm => ?_, fun m1 hm => ?_⟩
      · simp [WikipediaService.firstOtherExn, hs] at h
      · simp [WikipediaService.firstOtherExn, hs] at hm
        subst hm
        simp [WikipediaService.get_location_info, hs]
      · simp at hm
      · simp at hm

/-- Witness for the amended C7: a lookup with one hit and a summary call
raising a WikipediaException is converted to the error marker. -/
theorem claim_c7_wiki_error_marker_witness :
    WikipediaService.isMarkerOrData
      (WikipediaService.get_location_info
        { search := fun _ => WikipediaService.PyRes.ok ["Paris".data],
          pageUrl := fun _ => WikipediaService.PyRes.ok "u".data,
          summary := fun _ =>
            WikipediaService.PyRes.raised
              (WikipediaService.PyExn.wikipediaException "disambiguation".data) }
        "paris".data) = true :=
  (claim_c7_wiki_error_marker
    { search := fun _ => WikipediaService.PyRes.ok ["Paris".data],
      pageUrl := fun _ => WikipediaService.PyRes.ok "u".data,
      summary := fun _ =>
        WikipediaService.PyRes.raised
          (WikipediaService.PyExn.wikipediaException "disambiguation".data) }
    "paris".data).1 (by decide)
/-- The no-location ToT message, identical in openai_agent.py line 321 and
simple_langchain_agent.py line 724. -/
def totClarifyMsg : Str :=
  ("After exploring multiple possibilities, I couldn\x27t determine a location " ++
   "from your query. Please specify a city or place.").data

namespace LangChainAgent

/-- The parsing state of the ToT loop (lines 659-666): the accumulated
candidates and evaluations, the selection fields, and the candidate
currently being read. -/
structure TotState where
  possible_locations : List Str
  evaluations : List (Str × Int × Str)
  selected_location : Str
  reasoning : Str
  current_location : Option Str
  current_score : Option Int
  current_reason : Option Str
deriving DecidableEq

/-- Python dict assignment evaluations[k] = v: overwrite in place or append. -/
def evalsUpsert (k : Str) (v : Int × Str) : List (Str × Int × Str) → List (Str × Int × Str)
  | [] => [(k, v.1, v.2)]
  | (k1, s1, r1) :: rest =>
    if k1 = k then (k, v.1, v.2) :: rest else (k1, s1, r1) :: evalsUpsert k v rest

/-- Python (k in evaluations). -/
def evalsHas (k : Str) : List (Str × Int × Str) → Bool
  | [] => false
  | (k1, _, _) :: rest => k1 = k || evalsHas k rest

/-- Python truthiness of current_location (None and the empty string are
falsy). -/
def currentTruthy (st : TotState) : Bool :=
  match st.current_location with
  | some l => !l.isEmpty
  | none => false

/-- Python (current_reason or the no-reason default). -/
def reasonOrDefault (cr : Option Str) : Str :=
  match cr with
  | some r => if r = [] then "No reason provided".data else r
  | none => "No reason provided".data

/-- The in-loop save of the previous candidate (lines 672-677). -/
def saveCurrent (st : TotState) : TotState :=
  if currentTruthy st = true ∧ st.current_score.isSome = true then
    { st with
        evaluations := (evalsUpsert (st.current_location.getD [])
          (st.current_score.getD 0, reasonOrDefault st.current_reason) st.evaluations) }
  else st

/-- One iteration of the ToT parsing loop (lines 668-695). -/
def parseTotLine (st : TotState) (rawLine : Str) : TotState :=
  let line := Py.strip rawLine
  if "POSSIBLE LOCATION:".data.isPrefixOf line then
    let st1 := saveCurrent st
    let newloc := Py.strip (Py.replace "POSSIBLE LOCATION:".data [] line)
    { st1 with
        current_location := some newloc,
        current_score := none,
        current_reason := none,
        possible_locations := st1.possible_locations ++ [newloc] }
  else if "SCORE:".data.isPrefixOf line then
    { st with
        current_score := (some ((Py.toInt (Py.strip (Py.replace "SCORE:".data [] line))).getD 0)) }
  else if "REASON:".data.isPrefixOf line then
    { st with current_reason := some (Py.strip (Py.replace "REASON:".data [] line)) }
  else if "SELECTED LOCATION:".data.isPrefixOf line then
    { st with selected_location := Py.strip (Py.replace "SELECTED LOCATION:".data [] line) }
  else if "SELECTION REASONING:".data.isPrefixOf line then
    { st with reasoning := Py.strip (Py.replace "SELECTION REASONING:".data [] line) }
  else st

/-- The post-loop save of the last candidate (lines 697-702). -/
def finalSave (st : TotState) : TotState :=
  if currentTruthy st = true ∧ st.current_score.isSome = true ∧
      evalsHas (st.current_location.getD []) st.evaluations = false then
    { st with
        evaluations := (st.evaluations ++
          [(st.current_location.getD [],
            st.current_score.getD 0, reasonOrDefault st.current_reason)]) }
  else st

/-- The single-candidate fallback (lines 704-707): only when exactly one
candidate was enumerated and no selection line was seen. -/
def totFallback (st : TotState) : TotState :=
  if st.possible_locations.length = 1 ∧ st.selected_location = [] then
    { st with
        selected_location := st.possible_locations.headD [],
        reasoning := "Only one location was identified.".data }
  else st

/-- The ToT text parsing of _process_query_tot (lines 658-702). -/
def parseTot (text : Str) : TotState :=
  finalSave ((Py.splitLines (Py.strip text)).foldl parseTotLine
    ⟨[], [], [], [], none, none, none⟩)

/-- The composer-failure reply of _process_query_tot (line 875). -/
def totFallbackReplyMsg (location : Str) (w : Weather) : Str :=
  "After considering multiple possible locations, I identified ".data ++ location ++
  " as the most likely. The current temperature is ".data ++ intStr w.temp ++
  "°C, feels like ".data ++ intStr w.feels_like ++ "°C, with ".data ++ w.description ++
  " and ".data ++ intStr w.humidity ++
  "% humidity.\n\nSources: [Weather data from OpenWeatherMap](".data ++
  weatherSourceUrl ++ ")".data

/-- The data-gathering and response tail of _process_query_tot (lines
740-875), as for the CoT pipeline. -/
def totBody (env : LEnv) (location : Str) : RunOut :=
  match env.sv.getWeather location with
  | .err e => ⟨WeatherAgent.weatherErrorReply e, [Call.llmPlan, Call.weather location], none⟩
  | .ok w =>
    match env.compose with
    | some text =>
      ⟨text, [Call.llmPlan, Call.weather location, Call.wiki location, Call.llmCompose], some w⟩
    | none =>
      ⟨totFallbackReplyMsg location w,
       [Call.llmPlan, Call.weather location, Call.wiki location, Call.llmCompose], some w⟩

/-- Embeds SimpleLangChainWeatherAgent._process_query_tot (lines 610-875):
a successful completion is parsed and the single-candidate fallback applied;
an empty selection returns the no-location message; a raised completion goes
to the simple fallback extraction. -/
def tot (env : LEnv) (query : Str) : RunOut :=
  match env.planText with
  | some txt =>
    let st := totFallback (parseTot txt)
    if st.selected_location = [] then ⟨totClarifyMsg, [Call.llmPlan], none⟩
    else totBody env st.selected_location
  | none => totBody env (simple_extract query)

end LangChainAgent

namespace OpenAIAgent

/-- The JSON object parsed from the ToT completion, restricted to the keys
the selection gate reads. -/
structure TotJson where
  possible_locations : Option (List Str)
  selected_location : Option Str

/-- Embeds OpenAIWeatherAgent._reason_with_tot (lines 480-539) as its caller
sees it: the exception default carries an empty candidate list and empty
selection; a present nonempty selected_location is stripped and
de-punctuated at the end. -/
def reason_with_tot (r : Option TotJson) : TotJson :=
  match r with
  | none => ⟨some [], some []⟩
  | some j =>
    match j.selected_location with
    | some l =>
      if l ≠ [] then { j with selected_location := some (Py.rstrip punct (Py.strip l)) } else j
    | none => j

/-- The selection gate of _process_query_tot (lines 294-321): an empty
selected_location returns the no-location message regardless of the
candidate list; there is no fallback to a candidate. -/
def totSelectedGate (r : Option TotJson) : Sum Str Str :=
  if (reason_with_tot r).selected_location.getD [] = [] then Sum.inl totClarifyMsg
  else Sum.inr ((reason_with_tot r).selected_location.getD [])

end OpenAIAgent

/-- C8 counterexample: an LLM output enumerating two candidates without a
selection line leaves the selection empty (the fallback requires exactly one
candidate), and the orchestrator returns the no-location message although
candidates are available. -/
theorem claim_c8_counterexample :
    let T : Str :=
      "POSSIBLE LOCATION: paris\nSCORE: 80\nREASON: a\n\nPOSSIBLE LOCATION: london\nSCORE: 60\nREASON: b".data
    let E : LangChainAgent.LEnv :=
      { planText := some T,
        sv := { getWeather := fun _ => WRes.ok ⟨20, 18, 50, "clear".data⟩,
                getWiki := fun _ => KRes.ok "s".data "u".data },
        reflectText := none, compose := some "nice".data }
    (LangChainAgent.parseTot T).possible_locations = ["paris".data, "london".data] ∧
    (LangChainAgent.parseTot T).selected_location = [] ∧
    (LangChainAgent.totFallback (LangChainAgent.parseTot T)).selected_location = [] ∧
    LangChainAgent.tot E "anything".data =
      ⟨totClarifyMsg, [Call.llmPlan], none⟩ := by
  decide

/-- C8 (amended): the LangChain ToT caller falls back to the single
enumerated candidate only when exactly one candidate was parsed and the
selection is empty; with any other number of candidates an empty selection
makes the orchestrator return the no-location message; a nonempty parsed
selection is kept; and the OpenAI ToT pipeline has no candidate fallback at
all: an empty selected_location returns the message whatever the candidate
list holds. -/
theorem claim_c8_tot_selection (txt q : Str) (env : LangChainAgent.LEnv)
    (r : Option OpenAIAgent.TotJson) :
    ((LangChainAgent.parseTot txt).selected_location = [] →
      (LangChainAgent.parseTot txt).possible_locations.length = 1 →
      (LangChainAgent.totFallback (LangChainAgent.parseTot txt)).selected_location =
        (LangChainAgent.parseTot txt).possible_locations.headD [])
  ∧ ((LangChainAgent.parseTot txt).selected_location = [] →
      (LangChainAgent.parseTot txt).possible_locations.length ≠ 1 →
      env.planText = some txt →
      LangChainAgent.tot env q = ⟨totClarifyMsg, [Call.llmPlan], none⟩)
  ∧ ((LangChainAgent.parseTot txt).selected_location ≠ [] →
      (LangChainAgent.totFallback (LangChainAgent.parseTot txt)).selected_location =
        (LangChainAgent.parseTot txt).selected_location)
  ∧ ((OpenAIAgent.reason_with_tot r).selected_location.getD [] = [] →
      OpenAIAgent.totSelectedGate r = Sum.inl totClarifyMsg) := by
  refine ⟨?_, ?_, ?_, ?_⟩
  · intro hsel hlen
    simp [LangChainAgent.totFallback, hsel, hlen]
  · intro hsel hlen hpt
    have hfb : LangChainAgent.totFallback (LangChainAgent.parseTot txt) =
        LangChainAgent.parseTot txt := by
      simp [LangChainAgent.totFallback, hlen]
    simp only [LangChainAgent.tot, hpt, hfb, hsel]
    simp
  · intro hsel
    simp [LangChainAgent.totFallback, hsel]
  · intro hsel
    simp [OpenAIAgent.totSelectedGate, hsel]

/-- Witness for the amended C8: a single enumerated candidate with no
selection line is promoted to the selected location. -/
theorem claim_c8_tot_selection_witness :
    (LangChainAgent.totFallback
      (LangChainAgent.parseTot "POSSIBLE LOCATION: paris\nSCORE: 80".data)).selected_location =
      (LangChainAgent.parseTot "POSSIBLE LOCATION: paris\nSCORE: 80".data).possible_locations.headD [] :=
  (claim_c8_tot_selection "POSSIBLE LOCATION: paris\nSCORE: 80".data "q".data
    { planText := none,
      sv := { getWeather := fun _ => WRes.err [], getWiki := fun _ => KRes.err [] },
      reflectText := none, compose := none } none).1 (by decide) (by decide)
namespace ClotheAgent

/-- Python str(temperature) for the rational modelling the float
temperature (integer-valued in every claim input). -/
def ratStr (q : ℚ) : Str := (toString q).data

/-- Python (needle in conditions.lower()). -/
def condHas (needle : Str) (conditions : Str) : Bool :=
  Py.hasSub needle (Py.lower conditions)

def lightClothing : Str := "light clothing such as t-shirts, shorts or light dresses".data

def mediumClothing : Str :=
  "medium-weight clothing such as long sleeves, light jackets, or jeans".data

def warmClothing : Str := "warm clothing such as sweaters, jackets, and long pants".data

def heavyClothing : Str :=
  "heavy winter clothing including a warm coat, scarf, gloves, and hat".data

def waterproofAdvice : Str := ". Don\x27t forget a waterproof jacket or umbrella".data

def bootsAdvice : Str := ". Make sure to wear waterproof boots and a warm hat".data

def sunAdvice : Str := ". Consider wearing sunglasses and applying sunscreen".data

/-- The temperature ladder of _generate_fallback_recommendation (lines
123-130). -/
def baseClothing (temperature : ℚ) : Str :=
  if temperature > 25 then lightClothing
  else if temperature > 15 then mediumClothing
  else if temperature > 5 then warmClothing
  else heavyClothing

/-- The condition-specific advice chain (lines 133-138): an if/elif chain,
so at most one clause is appended. -/
def advice (temperature : ℚ) (conditions : Str) : Str :=
  if condHas "rain".data conditions = true ∨ condHas "drizzle".data conditions = true then
    waterproofAdvice
  else if condHas "snow".data conditions = true then bootsAdvice
  else if condHas "clear".data conditions = true ∧ temperature > 20 then sunAdvice
  else []

/-- Embeds ClotheAgent._generate_fallback_recommendation (lines 121-140):
the clothing phrase from the temperature ladder, extended by the advice
chain, interpolated into the fixed sentence. -/
def generate_fallback_recommendation (temperature : ℚ) (conditions : Str) : Str :=
  "Based on the current temperature of ".data ++ ratStr temperature ++ "°C with ".data ++
  conditions ++ ", I recommend wearing ".data ++
  (baseClothing temperature ++ advice temperature conditions) ++ ".".data

/-- The main.{temp, feels_like, humidity} sub-dictionary with optional
keys. -/
structure MainOpt where
  temp : Option ℚ
  feels_like : Option ℚ
  humidity : Option ℚ

/-- One element of the weather list with an optional description. -/
structure CondOpt where
  description : Option Str

/-- The weather payload as generate_clothing_recommendation receives it:
both top-level keys optional. -/
structure WeatherDict where
  main : Option MainOpt
  weather : Option (List CondOpt)

/-- The field extraction of generate_clothing_recommendation (lines 44-47):
get with defaults 0 and unknown; indexing an explicitly present empty
weather list raises in Python, modelled as none. -/
def extractTempCond (d : WeatherDict) : Option (ℚ × Str) :=
  let t : ℚ :=
    match d.main with
    | none => 0
    | some m => m.temp.getD 0
  match d.weather with
  | none => some (t, "unknown".data)
  | some [] => none
  | some (c :: _) => some (t, c.description.getD "unknown".data)

end ClotheAgent

theorem hasSub_of_middle (sep pre post : Str) (hsep : sep ≠ []) :
    Py.hasSub sep (pre ++ sep ++ post) = true :=
  (Py.hasSub_iff_occurs hsep).mpr (List.infix_append pre sep post)

/-- C10 counterexample: for the condition snow and rain (which contains
snow), the fallback appends only the waterproof clause of the if/elif
chain, not the boots-and-hat advice the claim promises for snow. -/
theorem claim_c10_counterexample :
    ClotheAgent.condHas "snow".data "snow and rain".data = true ∧
    Py.hasSub "waterproof boots".data
      (ClotheAgent.generate_fallback_recommendation 0 "snow and rain".data) = false ∧
    Py.hasSub "waterproof jacket or umbrella".data
      (ClotheAgent.generate_fallback_recommendation 0 "snow and rain".data) = true := by
  decide

/-- C10 (amended): the fallback recommendation is deterministic in
(temperature, conditions): the temperature ladder picks light, medium, warm
or heavy clothing exactly as claimed; the advice clauses form an if/elif
chain, so the waterproof clause is appended whenever rain or drizzle occurs,
the boots clause only when snow occurs without rain or drizzle, and the
sun-protection clause only when clear occurs above 20 degrees with none of
the wet conditions; and absent weather fields default to temperature 0 and
condition unknown before the mapping. -/
theorem claim_c10_clothing_fallback (t : ℚ) (cond : Str) (d : ClotheAgent.WeatherDict) :
    (t > 25 → Py.hasSub ClotheAgent.lightClothing
      (ClotheAgent.generate_fallback_recommendation t cond) = true)
  ∧ (15 < t ∧ t ≤ 25 → Py.hasSub ClotheAgent.mediumClothing
      (ClotheAgent.generate_fallback_recommendation t cond) = true)
  ∧ (5 < t ∧ t ≤ 15 → Py.hasSub ClotheAgent.warmClothing
      (ClotheAgent.generate_fallback_recommendation t cond) = true)
  ∧ (t ≤ 5 → Py.hasSub ClotheAgent.heavyClothing
      (ClotheAgent.generate_fallback_recommendation t cond) = true)
  ∧ (ClotheAgent.condHas "rain".data cond = true ∨
      ClotheAgent.condHas "drizzle".data cond = true →
      Py.hasSub ClotheAgent.waterproofAdvice
        (ClotheAgent.generate_fallback_recommendation t cond) = true)
  ∧ (ClotheAgent.condHas "rain".data cond = false →
      ClotheAgent.condHas "drizzle".data cond = false →
      ClotheAgent.condHas "snow".data cond = true →
      Py.hasSub ClotheAgent.bootsAdvice
        (ClotheAgent.generate_fallback_recommendation t cond) = true)
  ∧ (ClotheAgent.condHas "rain".data cond = false →
      ClotheAgent.condHas "drizzle".data cond = false →
      ClotheAgent.condHas "snow".data cond = false →
      ClotheAgent.condHas "clear".data cond = true → t > 20 →
      Py.hasSub ClotheAgent.sunAdvice
        (ClotheAgent.generate_fallback_recommendation t cond) = true)
  ∧ (d.main = none → d.weather = none →
      ClotheAgent.extractTempCond d = some (0, "unknown".data)) := by
  refine ⟨?_, ?_, ?_, ?_, ?_, ?_, ?_, ?_⟩
  · intro h
    have hbase : ClotheAgent.baseClothing t = ClotheAgent.lightClothing := by
      unfold ClotheAgent.baseClothing
      rw [if_pos h]
    refine (Py.hasSub_iff_occurs (by decide)).mpr
      ⟨"Based on the current temperature of ".data ++ ClotheAgent.ratStr t ++ "°C with ".data ++
        cond ++ ", I recommend wearing ".data,
       ClotheAgent.advice t cond ++ ".".data, ?_⟩
    simp [ClotheAgent.generate_fallback_recommendation, hbase, List.append_assoc]
  · intro h
    have h1 : ¬ (25 : ℚ) < t := not_lt.mpr h.2
    have hbase : ClotheAgent.baseClothing t = ClotheAgent.mediumClothing := by
      unfold ClotheAgent.baseClothing
      rw [if_neg h1, if_pos h.1]
    refine (Py.hasSub_iff_occurs (by decide)).mpr
      ⟨"Based on the current temperature of ".data ++ ClotheAgent.ratStr t ++ "°C with ".data ++
        cond ++ ", I recommend wearing ".data,
       ClotheAgent.advice t cond ++ ".".data, ?_⟩
    simp [ClotheAgent.generate_fallback_recommendation, hbase, List.append_assoc]
  · intro h
    have h1 : ¬ (25 : ℚ) < t := not_lt.mpr (le_trans h.2 (by norm_num))
    have h2 : ¬ (15 : ℚ) < t := not_lt.mpr h.2
    have hbase : ClotheAgent.baseClothing t = ClotheAgent.warmClothing := by
      unfold ClotheAgent.baseClothing
      rw [if_neg h1, if_neg h2, if_pos h.1]
    refine (Py.hasSub_iff_occurs (by decide)).mpr
      ⟨"Based on the current temperature of ".data ++ ClotheAgent.ratStr t ++ "°C with ".data ++
        cond ++ ", I recommend wearing ".data,
       ClotheAgent.advice t cond ++ ".".data, ?_⟩
    simp [ClotheAgent.generate_fallback_recommendation, hbase, List.append_assoc]
  · intro h
    have h1 : ¬ (25 : ℚ) < t := not_lt.mpr (le_trans h (by norm_num))
    have h2 : ¬ (15 : ℚ) < t := not_lt.mpr (le_trans h (by norm_num))
    have h3 : ¬ (5 : ℚ) < t := not_lt.mpr h
    have hbase : ClotheAgent.baseClothing t = ClotheAgent.heavyClothing := by
      unfold ClotheAgent.baseClothing
      rw [if_neg h1, if_neg h2, if_neg h3]
    refine (Py.hasSub_iff_occurs (by decide)).mpr
      ⟨"Based on the current temperature of ".data ++ ClotheAgent.ratStr t ++ "°C with ".data ++
        cond ++ ", I recommend wearing ".data,
       ClotheAgent.advice t cond ++ ".".data, ?_⟩
    simp [ClotheAgent.generate_fallback_recommendation, hbase, List.append_assoc]
  · intro h
    have hadv : ClotheAgent.advice t cond = ClotheAgent.waterproofAdvice := by
      unfold ClotheAgent.advice
      rw [if_pos h]
    refine (Py.hasSub_iff_occurs (by decide)).mpr
      ⟨"Based on the current temperature of ".data ++ ClotheAgent.ratStr t ++ "°C with ".data ++
        cond ++ ", I recommend wearing ".data ++ ClotheAgent.baseClothing t,
       ".".data, ?_⟩
    simp [ClotheAgent.generate_fallback_recommendation, hadv, List.append_assoc]
  · intro h1 h2 h3
    have hadv : ClotheAgent.advice t cond = ClotheAgent.bootsAdvice := by
      unfold ClotheAgent.advice
      rw [if_neg (by simp [h1, h2]), if_pos h3]
    refine (Py.hasSub_iff_occurs (by decide)).mpr
      ⟨"Based on the current temperature of ".data ++ ClotheAgent.ratStr t ++ "°C with ".data ++
        cond ++ ", I recommend wearing ".data ++ ClotheAgent.baseClothing t,
       ".".data, ?_⟩
    simp [ClotheAgent.generate_fallback_recommendation, hadv, List.append_assoc]
  · intro h1 h2 h3 h4 h5
    have hadv : ClotheAgent.advice t cond = ClotheAgent.sunAdvice := by
      unfold ClotheAgent.advice
      rw [if_neg (by simp [h1, h2]), if_neg (by simp [h3]), if_pos ⟨h4, h5⟩]
    refine (Py.hasSub_iff_occurs (by decide)).mpr
      ⟨"Based on the current temperature of ".data ++ ClotheAgent.ratStr t ++ "°C with ".data ++
        cond ++ ", I recommend wearing ".data ++ ClotheAgent.baseClothing t,
       ".".data, ?_⟩
    simp [ClotheAgent.generate_fallback_recommendation, hadv, List.append_assoc]
  · intro hm hw
    simp [ClotheAgent.extractTempCond, hm, hw]

/-- Witness for the amended C10: at 30 degrees and clear conditions the
fallback recommends light clothing. -/
theorem claim_c10_clothing_fallback_witness :
    Py.hasSub ClotheAgent.lightClothing
      (ClotheAgent.generate_fallback_recommendation 30 "clear".data) = true :=
  (claim_c10_clothing_fallback 30 "clear".data ⟨none, none⟩).1 (by norm_num)
